import Mathlib

/-!
# minicap (`minicap_mmb29m.cpp`): a shallow embedding and its verified properties

The development embeds the screenshot-based capture backend of minicap:

* `convert565to888`, the NEON RGB565 to RGB888 converter, intrinsic by intrinsic;
* `MinicapImpl`, the capture session (`applyConfigChanges`, `consumePendingFrame`,
  `releaseConsumedFrame`, the setters and `release`);
* `minicap_try_get_display_info`, the display-info resolver;
* `error_name`, the table of status names.

Machine integers are natural numbers or integers with the reduction modulo `2 ^ w`
written out where the C++ type wraps.  Memory objects are lists (the list's length is
the object's capacity).  An execution whose behaviour C++ leaves undefined ends in a
`Fault`; the compositor, the allocator and the registered listener are external and
enter as parameters.
-/

namespace Minicap

/-! ## Faults -/

/-- Ways in which an execution leaves the behaviour defined by C++. -/
inductive Fault where
  /-- an `int` expression whose value is outside the range of `int` -/
  | signedOverflow
  /-- the pointer `src + width * height` formed before the start of the source object -/
  | endBeforeSource
  /-- a load that reaches past the end of the source pixel object -/
  | readPastSource
  /-- a store that reaches past the end of the destination object -/
  | writePastDest
  /-- a store through a null destination pointer -/
  | nullDest
  /-- a call through a listener pointer that designates no listener -/
  | badListener
  /-- an `android::Vector::operator[]` with an index outside the vector -/
  | vectorIndex
  /-- the loop model ran out of fuel (not reached by `convert565to888`) -/
  | outOfFuel
deriving DecidableEq, Repr

deriving instance DecidableEq for Except

/-! ## NEON intrinsics used by the converter

A `uint16x8_t` is a list of eight lanes below `2 ^ 16`, a `uint8x16_t` a list of sixteen
lanes below `2 ^ 8`, a `uint8x8_t` a list of eight lanes below `2 ^ 8`. -/

/-- The intrinsic `vld1q_u16(src)`: load eight consecutive 16-bit lanes, here from
element offset `off` of the source object. -/
def vld1q_u16 (src : List Nat) (off : Nat) : Except Fault (List Nat) :=
  if off + 8 ≤ src.length then .ok ((src.drop off).take 8) else .error .readPastSource

/-- The cast `(uint8x16_t)in`: the same 128 bits seen as bytes, low byte of each 16-bit
lane first (little-endian ARM). -/
def reinterpret_u8_u16 : List Nat → List Nat
  | [] => []
  | x :: xs => x % 256 :: x / 256 :: reinterpret_u8_u16 xs

/-- The implicit conversion back from `uint8x16_t` to `uint16x8_t` (`tmp = vshrq_n_u8(..)`):
pairs of bytes, low byte first, seen as 16-bit lanes. -/
def reinterpret_u16_u8 : List Nat → List Nat
  | lo :: hi :: rest => (lo + 256 * hi) :: reinterpret_u16_u8 rest
  | _ => []

/-- The intrinsic `vshrq_n_u8(v, n)`: shift every byte lane right by `n`. -/
def vshrq_n_u8 (v : List Nat) (n : Nat) : List Nat :=
  v.map fun x => x >>> n

/-- The intrinsic `vshrn_n_u16(v, n)`: shift every 16-bit lane right by `n` and narrow to 8 bits. -/
def vshrn_n_u16 (v : List Nat) (n : Nat) : List Nat :=
  v.map fun x => (x >>> n) % 256

/-- The intrinsic `vshl_n_u8(v, n)`: shift every byte lane left by `n`, keeping 8 bits. -/
def vshl_n_u8 (v : List Nat) (n : Nat) : List Nat :=
  v.map fun x => (x <<< n) % 256

/-- The intrinsic `vshlq_n_u16(v, n)`: shift every 16-bit lane left by `n`, keeping 16 bits. -/
def vshlq_n_u16 (v : List Nat) (n : Nat) : List Nat :=
  v.map fun x => (x <<< n) % 65536

/-- The intrinsic `vmovn_u16(v)`: narrow every 16-bit lane to its low 8 bits. -/
def vmovn_u16 (v : List Nat) : List Nat :=
  v.map fun x => x % 256

/-- The memory image of a `uint8x8x3_t` stored by `vst3_u8`: lane `i` of the three
vectors goes to bytes `3i`, `3i+1`, `3i+2`. -/
def interleave3 : List Nat → List Nat → List Nat → List Nat
  | r :: rs, g :: gs, b :: bs => r :: g :: b :: interleave3 rs gs bs
  | _, _, _ => []

/-- The intrinsic `vst3_u8(dst, rgb)`: store the 24 interleaved bytes, here at byte
offset `off` of the destination object. -/
def vst3_u8 (dst : List Nat) (off : Nat) (r g b : List Nat) : Except Fault (List Nat) :=
  if off + 24 ≤ dst.length then
    .ok (dst.take off ++ interleave3 r g b ++ dst.drop (off + 24))
  else .error .writePastDest

/-! ## `convert565to888` -/

/-- The machine state of the conversion loop: the source and destination objects (two
distinct objects, as in `consumePendingFrame`), the two moving pointers as offsets into
them, and the number of loop bodies executed so far. -/
structure ConvState where
  /-- the source object: 16-bit pixels -/
  src : List Nat
  /-- the destination object: bytes -/
  dst : List Nat
  /-- the `src` pointer, as an element offset into the source object -/
  srcOff : Nat
  /-- the `dst` pointer, as a byte offset into the destination object -/
  dstOff : Nat
  /-- loop bodies executed -/
  steps : Nat
deriving DecidableEq, Repr

/-- One execution of the loop body, lines 111 to 121. -/
def convertBody (st : ConvState) : Except Fault ConvState :=
  match vld1q_u16 st.src st.srcOff with
  | .error e => .error e
  | .ok vin =>
    let tmp := reinterpret_u16_u8 (vshrq_n_u8 (reinterpret_u8_u16 vin) 3)
    let r := vshrn_n_u16 tmp 5
    let g := vshrn_n_u16 vin 5
    let g := vshl_n_u8 g 2
    let tmp := vshlq_n_u16 vin 3
    let b := vmovn_u16 tmp
    match vst3_u8 st.dst st.dstOff r g b with
    | .error e => .error e
    | .ok dst =>
      .ok { st with dst := dst, srcOff := st.srcOff + 8, dstOff := st.dstOff + 24,
                    steps := st.steps + 1 }

/-- The loop `while (src < end_addr) { ... }`, with `end_addr = src₀ + endOff`; it is
entered from `convert565to888` with `0 ≤ endOff` only, where comparing the two pointers is
comparing their offsets into the source object. -/
def convertLoop (endOff : Int) : Nat → ConvState → Except Fault ConvState
  | 0, st => if (st.srcOff : Int) < endOff then .error .outOfFuel else .ok st
  | fuel + 1, st =>
    if (st.srcOff : Int) < endOff then
      match convertBody st with
      | .error e => .error e
      | .ok st => convertLoop endOff fuel st
    else .ok st

/-- The value range of `int`. -/
def inIntRange (x : Int) : Prop := -2147483648 ≤ x ∧ x < 2147483648

instance (x : Int) : Decidable (inIntRange x) := by
  unfold inIntRange; infer_instance

/-- The member `MinicapImpl::convert565to888(src, dst, width, height)`.  The product
`width * height` is an `int` product.  The pointer `end_addr = src + width * height` is
formed before the loop: for a negative product it lies before the source object, which
C++ leaves undefined (on a 32-bit target the address can wrap), so the run ends in a
`Fault`; for a product beyond the object the loop ends in the load that leaves it.  The
loop gets `width * height` units of fuel, no fewer than the `⌈width * height / 8⌉` bodies
it can execute (`convert565to888_fuel`). -/
def convert565to888 (src dst : List Nat) (width height : Int) : Except Fault ConvState :=
  if inIntRange (width * height) then
    if 0 ≤ width * height then
      convertLoop (width * height) (width * height).toNat
        { src := src, dst := dst, srcOff := 0, dstOff := 0, steps := 0 }
    else .error .endBeforeSource
  else .error .signedOverflow

/-- The shift formula of the specification for one pixel (written from the
specification's words, to be compared with the vector code): red, green, blue. -/
def rgb888 (p : Nat) : List Nat :=
  [(p >>> 11) <<< 3, ((p >>> 5) &&& 0x3F) <<< 2, (p &&& 0x1F) <<< 3]

/-! ## Platform constants and the external collaborators -/

/-- The code `android::OK` of the platform header `utils/Errors.h`. -/
def OK : Int := 0

/-- The code `android::NO_ERROR` of the platform header `utils/Errors.h` (the same code as `OK`). -/
def NO_ERROR : Int := 0

/-- The code `android::BAD_VALUE` of the platform header `utils/Errors.h`, that is `-EINVAL`. -/
def BAD_VALUE : Int := -22

/-- The structure `android::DisplayInfo` of the platform header `ui/DisplayInfo.h`,
restricted to the fields the resolver reads.  `F` is the carrier of `float`. -/
structure AndroidDisplayInfo (F : Type) where
  w : Nat
  h : Nat
  xdpi : F
  ydpi : F
  fps : F
  density : F
  orientation : Nat
  secure : Bool

/-- The object an `android::ScreenshotClient` is after `update()`: the status `update`
returned and what `getPixels`, `getWidth`, `getHeight`, `getStride` answer.  The pixel
object is read as 16-bit words (`(uint16_t*) base`). -/
structure ScreenshotClient where
  result : Int
  pixels : List Nat
  width : Nat
  height : Nat
  stride : Nat
deriving DecidableEq, Repr

/-- The compositor as the code consumes it.  A display handle (`sp<IBinder>`) is
`some h`, the null handle is `none`. -/
structure Compositor (F : Type) where
  /-- the call `SurfaceComposerClient::getBuiltInDisplay(id)` -/
  getBuiltInDisplay : Int → Option Nat
  /-- the call `ScreenshotClient::update(display, Rect(), 0, 0, 0, -1U, false, 0)` -/
  update : Option Nat → ScreenshotClient
  /-- the call `SurfaceComposerClient::getDisplayConfigs(display, &configs)`: status and list -/
  getDisplayConfigs : Option Nat → Int × List (AndroidDisplayInfo F)
  /-- the call `SurfaceComposerClient::getActiveConfig(display)` -/
  getActiveConfig : Option Nat → Int

/-- A heap object obtained from `malloc`: its address (its identity) and its bytes;
the number of bytes is its capacity. -/
structure Block where
  addr : Nat
  bytes : List Nat
deriving DecidableEq, Repr

/-- What the allocator will answer to the next `malloc`: the address of the fresh object
(`none` when `malloc` returns `NULL`) and the indeterminate bytes it initially holds. -/
structure Heap where
  fresh : Option Nat
  junk : Nat → Nat

/-- The call `malloc(size)`. -/
def malloc (heap : Heap) (size : Nat) : Option Block :=
  match heap.fresh with
  | none => none
  | some a => some { addr := a, bytes := (List.range size).map heap.junk }

/-! ## The capture session -/

/-- The enumerators of `Minicap::Format` named in `convertFormat`. -/
inductive Format where
  | FORMAT_NONE
  | FORMAT_CUSTOM
  | FORMAT_TRANSLUCENT
  | FORMAT_TRANSPARENT
  | FORMAT_OPAQUE
  | FORMAT_RGBA_8888
  | FORMAT_RGBX_8888
  | FORMAT_RGB_888
  | FORMAT_RGB_565
  | FORMAT_BGRA_8888
  | FORMAT_RGBA_5551
  | FORMAT_RGBA_4444
  | FORMAT_UNKNOWN
deriving DecidableEq, Repr

/-- Modelled from the spec: `Minicap::Frame`, declared in `Minicap.hpp`, which is not
among the sources: a byte buffer (here the address of the object, `none` for `NULL`), a
format tag, width, height, row stride in pixels, bytes per pixel and total byte size. -/
structure Frame where
  data : Option Nat
  format : Format
  width : Nat
  height : Nat
  stride : Nat
  bpp : Nat
  size : Nat
deriving DecidableEq, Repr

/-- Modelled from the spec: `Minicap::DisplayInfo`, declared in `Minicap.hpp`, which is
not among the sources: width, height, orientation, refresh rate, density, xdpi, ydpi,
secure flag and the derived diagonal size.  `F` is the carrier of `float`. -/
structure DisplayInfo (F : Type) where
  width : Nat
  height : Nat
  orientation : Nat
  fps : F
  density : F
  xdpi : F
  ydpi : F
  secure : Bool
  size : F

/-- The data members of `MinicapImpl`.  A listener pointer that designates a live
listener is `some l`; a null or indeterminate one is `none`. -/
structure MinicapImpl where
  mDisplayId : Int
  mDisplay : Option Nat
  mDesiredWidth : Nat
  mDesiredHeight : Nat
  mUserFrameAvailableListener : Option Nat
deriving DecidableEq, Repr

/-- State outside any one session: the function-local `static uint8_t *dst` of
`consumePendingFrame` together with the object it points to (`none` while it is `NULL`),
and the trace of `onFrameAvailable()` calls made so far, oldest first. -/
structure World where
  dst : Option Block
  notified : List Nat
deriving DecidableEq, Repr

/-- The constructor `MinicapImpl(displayId)`: it initialises the id and the desired
geometry; `mDisplay` is a default (null) `sp`, the listener pointer is left
indeterminate. -/
def MinicapImpl.create (displayId : Int) : MinicapImpl :=
  { mDisplayId := displayId, mDisplay := none, mDesiredWidth := 0, mDesiredHeight := 0,
    mUserFrameAvailableListener := none }

/-- The call `mUserFrameAvailableListener->onFrameAvailable()`. -/
def onFrameAvailable (self : MinicapImpl) (world : World) : Except Fault World :=
  match self.mUserFrameAvailableListener with
  | none => .error .badListener
  | some l => .ok { world with notified := world.notified ++ [l] }

/-- The member `MinicapImpl::applyConfigChanges()`: status, session and world afterwards. -/
def applyConfigChanges {F : Type} (c : Compositor F) (self : MinicapImpl) (world : World) :
    Except Fault (Int × MinicapImpl × World) :=
  let self := { self with mDisplay := c.getBuiltInDisplay self.mDisplayId }
  match self.mDisplay with
  | none => .ok (1, self, world)
  | some _ =>
    match onFrameAvailable self world with
    | .error e => .error e
    | .ok world => .ok (0, self, world)

/-- Conversion of a `uint32_t` argument to an `int` parameter. -/
def toInt32 (x : Nat) : Int :=
  if x % 4294967296 < 2147483648 then (x % 4294967296 : Nat)
  else ((x % 4294967296 : Nat) : Int) - 4294967296

/-- The member `MinicapImpl::consumePendingFrame(frame)`: status, world and the caller's frame
afterwards.  `width`, `height`, `stride` are `uint32_t`, so is the product handed to
`malloc` and the one stored in `frame->size`. -/
def consumePendingFrame {F : Type} (c : Compositor F) (heap : Heap) (self : MinicapImpl)
    (world : World) (frame : Frame) : Except Fault (Int × World × Frame) :=
  let screenshot := c.update self.mDisplay
  let result := screenshot.result
  if result ≠ OK then .ok (result, world, frame)
  else
    let width := screenshot.width % 4294967296
    let height := screenshot.height % 4294967296
    let stride := screenshot.stride % 4294967296
    let dst : Option Block :=
      match world.dst with
      | none => malloc heap ((stride * height * 3) % 4294967296)
      | some b => some b
    let filled : Frame :=
      { data := dst.map Block.addr, format := .FORMAT_RGB_888, width := width,
        height := height, stride := stride, bpp := 3,
        size := (stride * height * 3) % 4294967296 }
    match dst with
    | none =>
      -- the destination pointer is null: any store is a store through it
      match convert565to888 screenshot.pixels [] (toInt32 stride) (toInt32 height) with
      | .error .writePastDest => .error .nullDest
      | .error e => .error e
      | .ok _ => .ok (0, { world with dst := none }, filled)
    | some b =>
      match convert565to888 screenshot.pixels b.bytes (toInt32 stride) (toInt32 height) with
      | .error e => .error e
      | .ok st => .ok (0, { world with dst := some { b with bytes := st.dst } }, filled)

/-- The member `MinicapImpl::release()`: the body is empty. -/
def release (self : MinicapImpl) : MinicapImpl := self

/-- The member `MinicapImpl::releaseConsumedFrame(frame)`. -/
def releaseConsumedFrame (self : MinicapImpl) (world : World) (_frame : Frame) :
    Except Fault World :=
  onFrameAvailable self world

/-- The member `MinicapImpl::setDesiredInfo(info)`: status and session afterwards. -/
def setDesiredInfo {F : Type} (self : MinicapImpl) (info : DisplayInfo F) : Int × MinicapImpl :=
  (0, { self with mDesiredWidth := info.width % 4294967296,
                  mDesiredHeight := info.height % 4294967296 })

/-- The member `MinicapImpl::setFrameAvailableListener(listener)`. -/
def setFrameAvailableListener (self : MinicapImpl) (listener : Option Nat) : MinicapImpl :=
  { self with mUserFrameAvailableListener := listener }

/-- The member `MinicapImpl::setRealInfo(info)`. -/
def setRealInfo {F : Type} (_self : MinicapImpl) (_info : DisplayInfo F) : Int := 0

/-! ## Sequences of session operations -/

/-- A call on a session, with what the environment answers during the call. -/
inductive Op (F : Type) where
  | applyConfigChanges (c : Compositor F)
  | consumePendingFrame (c : Compositor F) (heap : Heap) (frame : Frame)
  | releaseConsumedFrame (frame : Frame)
  | setDesiredInfo (info : DisplayInfo F)
  | setRealInfo (info : DisplayInfo F)
  | setFrameAvailableListener (listener : Option Nat)
  | release

/-- What a call hands back: its status (`0` for the `void` members) and, for
`consumePendingFrame`, the caller's frame after the call. -/
structure Reply where
  status : Int
  frame : Option Frame
deriving DecidableEq, Repr

/-- One call on a session. -/
def step {F : Type} (op : Op F) (self : MinicapImpl) (world : World) :
    Except Fault (Reply × MinicapImpl × World) :=
  match op with
  | .applyConfigChanges c =>
    match applyConfigChanges c self world with
    | .error e => .error e
    | .ok (status, self, world) => .ok (⟨status, none⟩, self, world)
  | .consumePendingFrame c heap frame =>
    match consumePendingFrame c heap self world frame with
    | .error e => .error e
    | .ok (status, world, frame) => .ok (⟨status, some frame⟩, self, world)
  | .releaseConsumedFrame frame =>
    match releaseConsumedFrame self world frame with
    | .error e => .error e
    | .ok world => .ok (⟨0, none⟩, self, world)
  | .setDesiredInfo info =>
    .ok (⟨(setDesiredInfo self info).1, none⟩, (setDesiredInfo self info).2, world)
  | .setRealInfo info => .ok (⟨setRealInfo self info, none⟩, self, world)
  | .setFrameAvailableListener listener =>
    .ok (⟨0, none⟩, setFrameAvailableListener self listener, world)
  | .release => .ok (⟨0, none⟩, release self, world)

/-- A sequence of calls on a session, first call first: the replies in order and the
final session and world. -/
def run {F : Type} : List (Op F) → MinicapImpl → World →
    Except Fault (List Reply × MinicapImpl × World)
  | [], self, world => .ok ([], self, world)
  | op :: ops, self, world =>
    match step op self world with
    | .error e => .error e
    | .ok (reply, self, world) =>
      match run ops self world with
      | .error e => .error e
      | .ok (replies, self, world) => .ok (reply :: replies, self, world)

/-- The number of listener invocations the frame delivery protocol attributes to one
call (written from the specification's words): one for a `reconfigure` that returned
`0`, one for a `releaseFrame`, none for anything else. -/
def armsListener {F : Type} : Op F → Reply → Nat
  | .applyConfigChanges _, reply => if reply.status = 0 then 1 else 0
  | .releaseConsumedFrame _, _ => 1
  | _, _ => 0

/-- The number of listener invocations the protocol attributes to a sequence of calls:
successful `reconfigure` calls plus `releaseFrame` calls. -/
def armsListenerTotal {F : Type} : List (Op F) → List Reply → Nat
  | op :: ops, reply :: replies => armsListener op reply + armsListenerTotal ops replies
  | _, _ => 0

/-! ## The display-info resolver -/

/-- The cast `static_cast<size_t>(x)` of an `int` `x`, for a `size_t` of `sizeBits` bits. -/
def static_cast_size_t (sizeBits : Nat) (x : Int) : Nat :=
  (x % ((2 ^ sizeBits : Nat) : Int)).toNat

/-- The function `minicap_try_get_display_info(displayId, info)`: status and the caller's
`DisplayInfo` afterwards.  `diagonal w h xdpi ydpi` stands for the floating-point
evaluation of `sqrt(pow(w / xdpi, 2) + pow(h / ydpi, 2))`. -/
def minicap_try_get_display_info {F : Type} (c : Compositor F)
    (diagonal : Nat → Nat → F → F → F) (sizeBits : Nat) (displayId : Int)
    (info : DisplayInfo F) : Except Fault (Int × DisplayInfo F) :=
  let dpy := c.getBuiltInDisplay displayId
  let err := (c.getDisplayConfigs dpy).1
  let configs := (c.getDisplayConfigs dpy).2
  if err ≠ NO_ERROR then .ok (err, info)
  else
    let activeConfig := c.getActiveConfig dpy
    if static_cast_size_t sizeBits activeConfig ≥ configs.length then .ok (BAD_VALUE, info)
    else
      match configs[static_cast_size_t sizeBits activeConfig]? with
      | none => .error .vectorIndex
      | some dinfo =>
        .ok (0, { width := dinfo.w, height := dinfo.h, orientation := dinfo.orientation,
                  fps := dinfo.fps, density := dinfo.density, xdpi := dinfo.xdpi,
                  ydpi := dinfo.ydpi, secure := dinfo.secure,
                  size := diagonal dinfo.w dinfo.h dinfo.xdpi dinfo.ydpi })

/-! ## The status-name table -/

/-- The eighteen status codes of the platform header `utils/Errors.h` that `error_name`
switches on.  The header is not among the sources, so their values are a parameter; as
labels of one `switch` they are pairwise distinct in any program that compiles. -/
structure StatusCodes where
  NO_ERROR : Int
  UNKNOWN_ERROR : Int
  NO_MEMORY : Int
  INVALID_OPERATION : Int
  BAD_VALUE : Int
  BAD_TYPE : Int
  NAME_NOT_FOUND : Int
  PERMISSION_DENIED : Int
  NO_INIT : Int
  ALREADY_EXISTS : Int
  DEAD_OBJECT : Int
  FAILED_TRANSACTION : Int
  BAD_INDEX : Int
  NOT_ENOUGH_DATA : Int
  WOULD_BLOCK : Int
  TIMED_OUT : Int
  UNKNOWN_TRANSACTION : Int
  FDS_NOT_ALLOWED : Int
deriving DecidableEq, Repr

/-- The eighteen codes in the order of the `case` labels. -/
def StatusCodes.toList (k : StatusCodes) : List Int :=
  [k.NO_ERROR,
   k.UNKNOWN_ERROR,
   k.NO_MEMORY,
   k.INVALID_OPERATION,
   k.BAD_VALUE,
   k.BAD_TYPE,
   k.NAME_NOT_FOUND,
   k.PERMISSION_DENIED,
   k.NO_INIT,
   k.ALREADY_EXISTS,
   k.DEAD_OBJECT,
   k.FAILED_TRANSACTION,
   k.BAD_INDEX,
   k.NOT_ENOUGH_DATA,
   k.WOULD_BLOCK,
   k.TIMED_OUT,
   k.UNKNOWN_TRANSACTION,
   k.FDS_NOT_ALLOWED]

/-- The function `error_name(err)`: the `switch` as a chain of tests in the order of its
`case` labels, the `default` label last. -/
def error_name (k : StatusCodes) (err : Int) : String :=
  if err = k.NO_ERROR then "NO_ERROR"
  else if err = k.UNKNOWN_ERROR then "UNKNOWN_ERROR"
  else if err = k.NO_MEMORY then "NO_MEMORY"
  else if err = k.INVALID_OPERATION then "INVALID_OPERATION"
  else if err = k.BAD_VALUE then "BAD_VALUE"
  else if err = k.BAD_TYPE then "BAD_TYPE"
  else if err = k.NAME_NOT_FOUND then "NAME_NOT_FOUND"
  else if err = k.PERMISSION_DENIED then "PERMISSION_DENIED"
  else if err = k.NO_INIT then "NO_INIT"
  else if err = k.ALREADY_EXISTS then "ALREADY_EXISTS"
  else if err = k.DEAD_OBJECT then "DEAD_OBJECT"
  else if err = k.FAILED_TRANSACTION then "FAILED_TRANSACTION"
  else if err = k.BAD_INDEX then "BAD_INDEX"
  else if err = k.NOT_ENOUGH_DATA then "NOT_ENOUGH_DATA"
  else if err = k.WOULD_BLOCK then "WOULD_BLOCK"
  else if err = k.TIMED_OUT then "TIMED_OUT"
  else if err = k.UNKNOWN_TRANSACTION then "UNKNOWN_TRANSACTION"
  else if err = k.FDS_NOT_ALLOWED then "FDS_NOT_ALLOWED"
  else "UNMAPPED_ERROR"

/-- The values the codes have in the Android 6.0 platform headers (`OK = 0`, the `errno`
values negated, `UNKNOWN_ERROR = INT32_MIN` and the codes counted up from it). -/
def androidCodes : StatusCodes :=
  { NO_ERROR := 0,
    UNKNOWN_ERROR := -2147483648,
    NO_MEMORY := -12,
    INVALID_OPERATION := -38,
    BAD_VALUE := -22,
    BAD_TYPE := -2147483647,
    NAME_NOT_FOUND := -2,
    PERMISSION_DENIED := -1,
    NO_INIT := -19,
    ALREADY_EXISTS := -17,
    DEAD_OBJECT := -32,
    FAILED_TRANSACTION := -2147483646,
    BAD_INDEX := -75,
    NOT_ENOUGH_DATA := -61,
    WOULD_BLOCK := -11,
    TIMED_OUT := -110,
    UNKNOWN_TRANSACTION := -74,
    FDS_NOT_ALLOWED := -2147483641 }

/-! ## Concrete environments -/

/-- A compositor that resolves every display id to `handle`, answers every screenshot
with `shot`, every configuration query with `configs` and reports the active index
`active`. -/
def constCompositor (handle : Option Nat) (shot : ScreenshotClient)
    (configs : Int × List (AndroidDisplayInfo Nat)) (active : Int) : Compositor Nat :=
  { getBuiltInDisplay := fun _ => handle
    update := fun _ => shot
    getDisplayConfigs := fun _ => configs
    getActiveConfig := fun _ => active }

/-- An allocator whose next object is at address `addr` and initially holds zeros. -/
def zeroHeap (addr : Nat) : Heap :=
  { fresh := some addr, junk := fun _ => 0 }

/-- A caller's frame before any call filled it. -/
def blankFrame : Frame :=
  { data := none, format := .FORMAT_NONE, width := 0, height := 0, stride := 0, bpp := 0,
    size := 0 }

/-- An 8 by 1 snapshot with status `OK` whose visible width is 6 and whose stride is 8. -/
def demoShot : ScreenshotClient :=
  { result := 0, pixels := [0xF800, 0x07E0, 0x001F, 0xFFFF, 0, 1, 2, 0x1234],
    width := 6, height := 1, stride := 8 }

/-- A 3 by 1 snapshot with status `OK`: its pixel count is not a multiple of 8. -/
def oddShot : ScreenshotClient :=
  { result := 0, pixels := [0xF800, 0x07E0, 0x001F], width := 3, height := 1, stride := 3 }

/-- A snapshot the compositor refused with status `e`. -/
def failedShot (e : Int) : ScreenshotClient :=
  { result := e, pixels := [], width := 0, height := 0, stride := 0 }

/-- A session for display 0 that holds handle `handle` and listener `listener`. -/
def demoSession (handle listener : Option Nat) : MinicapImpl :=
  { mDisplayId := 0, mDisplay := handle, mDesiredWidth := 0, mDesiredHeight := 0,
    mUserFrameAvailableListener := listener }

/-- The calls `reconfigure`, `requestFrame`, `releaseFrame`, `reconfigure` against a
compositor that resolves handle 1 and answers every screenshot with `demoShot`. -/
def demoOps : List (Op Nat) :=
  [ .applyConfigChanges (constCompositor (some 1) demoShot (0, []) 0),
    .consumePendingFrame (constCompositor (some 1) demoShot (0, []) 0) (zeroHeap 4096)
      blankFrame,
    .releaseConsumedFrame blankFrame,
    .applyConfigChanges (constCompositor (some 1) demoShot (0, []) 0) ]

/-- The frame the `requestFrame` of `demoOps` fills in. -/
def demoFrame : Frame :=
  { data := some 4096, format := .FORMAT_RGB_888, width := 6, height := 1, stride := 8,
    bpp := 3, size := 24 }

/-- The world after `demoOps`, started from an empty world: the buffer at address 4096
holds the converted `demoShot`, and listener 3 was called three times. -/
def demoWorld : World :=
  { dst := some ⟨4096, [248, 0, 0, 0, 252, 0, 0, 0, 248, 248, 252, 248, 0, 0, 0, 0, 0, 8,
                        0, 0, 16, 16, 68, 160]⟩,
    notified := [3, 3, 3] }

/-- Two display configurations, 720 by 1280 and 1080 by 1920 (`float`s as plain
numbers). -/
def demoConfigs : List (AndroidDisplayInfo Nat) :=
  [ { w := 720, h := 1280, xdpi := 320, ydpi := 320, fps := 60, density := 2,
      orientation := 0, secure := false },
    { w := 1080, h := 1920, xdpi := 400, ydpi := 400, fps := 60, density := 3,
      orientation := 1, secure := true } ]

/-- A caller's `DisplayInfo` before any call filled it. -/
def blankInfo : DisplayInfo Nat :=
  { width := 0, height := 0, orientation := 0, fps := 0, density := 0, xdpi := 0,
    ydpi := 0, secure := false, size := 0 }

/-- A compositor over any carrier of `float` that resolves every display id to
`handle` and reports the configuration list `configs` with status `err` and active index
`active`; its screenshots are refused. -/
def configCompositor {F : Type} (handle : Option Nat) (err : Int)
    (configs : List (AndroidDisplayInfo F)) (active : Int) : Compositor F :=
  { getBuiltInDisplay := fun _ => handle
    update := fun _ => failedShot (-22)
    getDisplayConfigs := fun _ => (err, configs)
    getActiveConfig := fun _ => active }

/-- A 1080 by 1920 configuration with the given densities, refresh rate and scale. -/
def hdConfig {F : Type} (xdpi ydpi fps density : F) : AndroidDisplayInfo F :=
  { w := 1080, h := 1920, xdpi := xdpi, ydpi := ydpi, fps := fps, density := density,
    orientation := 0, secure := false }

/-- A session for display `displayId` that holds handle `handle` and listener
`listener`. -/
def sessionOn (displayId : Int) (handle listener : Option Nat) : MinicapImpl :=
  { mDisplayId := displayId, mDisplay := handle, mDesiredWidth := 0, mDesiredHeight := 0,
    mUserFrameAvailableListener := listener }

/-- An 8 by 1 snapshot with status `OK` of a second display, all pixels white. -/
def whiteShot : ScreenshotClient :=
  { result := 0, pixels := [0xFFFF, 0xFFFF, 0xFFFF, 0xFFFF, 0xFFFF, 0xFFFF, 0xFFFF, 0xFFFF],
    width := 8, height := 1, stride := 8 }

/-- A compositor with two displays: handle 2 shows `whiteShot`, any other handle
`demoShot`. -/
def twoDisplayCompositor : Compositor Nat :=
  { getBuiltInDisplay := fun id => if id = 1 then some 2 else some 1
    update := fun handle => if handle = some 2 then whiteShot else demoShot
    getDisplayConfigs := fun _ => (0, [])
    getActiveConfig := fun _ => 0 }

/-- A 40000 by 37500 snapshot with status `OK`, all pixels black: `3 * 40000 * 37500`
exceeds `2 ^ 32`. -/
def hugeShot : ScreenshotClient :=
  { result := 0, pixels := List.replicate 1500000000 0, width := 40000, height := 37500,
    stride := 40000 }

/-- Line 270 over exact real arithmetic: `sqrt(pow(w / xdpi, 2) + pow(h / ydpi, 2))` with
real division, squares and square root in place of their floating-point counterparts. -/
noncomputable def exactDiagonal (w h : Nat) (xdpi ydpi : ℝ) : ℝ :=
  Real.sqrt (((w : ℝ) / xdpi) ^ 2 + ((h : ℝ) / ydpi) ^ 2)

/-- Two `requestFrame` calls against a compositor that answers every screenshot with
`demoShot`. -/
def demoCaptures : List (Op Nat) :=
  [ .consumePendingFrame (constCompositor (some 1) demoShot (0, []) 0) (zeroHeap 4096)
      blankFrame,
    .consumePendingFrame (constCompositor (some 1) demoShot (0, []) 0) (zeroHeap 8192)
      blankFrame ]

/-- The replies to `demoOps`: four times status 0, the second with the filled frame. -/
def demoReplies : List Reply :=
  [⟨0, none⟩, ⟨0, some demoFrame⟩, ⟨0, none⟩, ⟨0, none⟩]

/-- A snapshot with status `OK` and eight pixels that reports stride `2 ^ 32 - 1` and
height `2 ^ 32 - 8`: as `int` arguments they are -1 and -8, their product is 8, and the
`uint32_t` product `stride * height * 3` wraps to 24. -/
def wrapShot : ScreenshotClient :=
  { result := 0, pixels := [0xF800, 0x07E0, 0x001F, 0xFFFF, 0, 1, 2, 0x1234],
    width := 8, height := 4294967288, stride := 4294967295 }

/-! ## The converter: auxiliary lemmas -/

theorem and_63 (x : Nat) : x &&& 0x3F = x % 64 := Nat.and_pow_two_sub_one_eq_mod x 6
theorem and_31 (x : Nat) : x &&& 0x1F = x % 32 := Nat.and_pow_two_sub_one_eq_mod x 5

theorem lane_red (p : Nat) (h : p < 65536) :
    ((((p % 256) >>> 3) + 256 * ((p / 256) >>> 3)) >>> 5) % 256 = (p >>> 11) <<< 3 := by
  simp only [Nat.shiftRight_eq_div_pow, Nat.shiftLeft_eq]
  omega

theorem lane_green (p : Nat) :
    ((((p >>> 5) % 256) <<< 2) % 256) = ((p >>> 5) &&& 0x3F) <<< 2 := by
  rw [and_63]
  simp only [Nat.shiftRight_eq_div_pow, Nat.shiftLeft_eq]
  omega

theorem lane_blue (p : Nat) :
    ((p <<< 3) % 65536) % 256 = (p &&& 0x1F) <<< 3 := by
  rw [and_31]
  simp only [Nat.shiftLeft_eq]
  omega

theorem body_bytes (vin : List Nat) (h : ∀ p ∈ vin, p < 65536) :
    interleave3
      (vshrn_n_u16 (reinterpret_u16_u8 (vshrq_n_u8 (reinterpret_u8_u16 vin) 3)) 5)
      (vshl_n_u8 (vshrn_n_u16 vin 5) 2)
      (vmovn_u16 (vshlq_n_u16 vin 3)) = vin.flatMap rgb888 := by
  induction vin with
  | nil => rfl
  | cons p ps ih =>
    have hp : p < 65536 := h p (List.mem_cons_self _ _)
    have ih := ih (fun q hq => h q (List.mem_cons_of_mem _ hq))
    simp only [vshrn_n_u16, vshl_n_u8, vmovn_u16, vshlq_n_u16, vshrq_n_u8,
      reinterpret_u8_u16, reinterpret_u16_u8, List.map_cons, interleave3,
      List.flatMap_cons, rgb888, List.cons_append, List.nil_append] at ih ⊢
    rw [ih, lane_red p hp, lane_green p, lane_blue p]


theorem length_flatMap_rgb888 (l : List Nat) : (l.flatMap rgb888).length = 3 * l.length := by
  induction l with
  | nil => rfl
  | cons a l ihl => simp [List.flatMap_cons, rgb888, ihl]; omega

theorem convertBody_ok (st : ConvState) (hpix : ∀ p ∈ st.src, p < 65536)
    (hs : st.srcOff + 8 ≤ st.src.length) (hd : st.dstOff + 24 ≤ st.dst.length) :
    convertBody st = .ok
      { src := st.src,
        dst := st.dst.take st.dstOff ++ ((st.src.drop st.srcOff).take 8).flatMap rgb888
                 ++ st.dst.drop (st.dstOff + 24),
        srcOff := st.srcOff + 8, dstOff := st.dstOff + 24, steps := st.steps + 1 } := by
  have hin : ∀ p ∈ (st.src.drop st.srcOff).take 8, p < 65536 := fun p hp =>
    hpix p (List.mem_of_mem_drop (List.mem_of_mem_take hp))
  simp only [convertBody, vld1q_u16, vst3_u8, if_pos hs, if_pos hd, body_bytes _ hin]

theorem convertLoop_spec (endOff : Int) :
    ∀ (m fuel : Nat) (st : ConvState), m ≤ fuel → (∀ p ∈ st.src, p < 65536) →
      endOff ≤ (st.srcOff : Int) + 8 * (m : Int) →
      (∀ j : Nat, j < m → (st.srcOff : Int) + 8 * (j : Int) < endOff) →
      st.srcOff + 8 * m ≤ st.src.length → st.dstOff + 24 * m ≤ st.dst.length →
      convertLoop endOff fuel st = .ok
        { src := st.src,
          dst := st.dst.take st.dstOff ++ ((st.src.drop st.srcOff).take (8 * m)).flatMap rgb888
                   ++ st.dst.drop (st.dstOff + 24 * m),
          srcOff := st.srcOff + 8 * m, dstOff := st.dstOff + 24 * m,
          steps := st.steps + m } := by
  intro m
  induction m with
  | zero =>
    intro fuel st _ _ hend _ _ _
    have hc : ¬ ((st.srcOff : Int) < endOff) := by omega
    cases fuel <;> simp [convertLoop, hc]
  | succ m ih =>
    intro fuel st hfuel hpix hend hlt hs hd
    obtain ⟨fuel, rfl⟩ : ∃ f, fuel = f + 1 := ⟨fuel - 1, by omega⟩
    have hc : (st.srcOff : Int) < endOff := by simpa using hlt 0 (Nat.succ_pos m)
    rw [convertLoop, if_pos hc, convertBody_ok st hpix (by omega) (by omega)]
    have hlen : (st.dst.take st.dstOff).length = st.dstOff := by
      rw [List.length_take]; omega
    have hblk : (((st.src.drop st.srcOff).take 8).flatMap rgb888).length = 24 := by
      rw [length_flatMap_rgb888, List.length_take, List.length_drop]; omega
    simp only []
    rw [ih fuel
      ⟨st.src, st.dst.take st.dstOff ++ ((st.src.drop st.srcOff).take 8).flatMap rgb888
          ++ st.dst.drop (st.dstOff + 24), st.srcOff + 8, st.dstOff + 24, st.steps + 1⟩
      (by omega) hpix (by push_cast at hend ⊢; omega)
      (fun j hj => by have := hlt (j + 1) (by omega); push_cast at this ⊢; omega)
      (by simp only []; omega)
      (by simp only [List.length_append, hlen, hblk, List.length_drop]; omega)]
    dsimp only
    congr 2
    · -- destination contents
      have e1 : List.take (st.dstOff + 24)
          (st.dst.take st.dstOff ++ ((st.src.drop st.srcOff).take 8).flatMap rgb888
            ++ st.dst.drop (st.dstOff + 24))
          = st.dst.take st.dstOff ++ ((st.src.drop st.srcOff).take 8).flatMap rgb888 := by
        rw [List.take_append_of_le_length (by simp [hlen, hblk])]
        rw [List.take_of_length_le (by simp [hlen, hblk])]
      have e2 : List.drop (st.dstOff + 24 + 24 * m)
          (st.dst.take st.dstOff ++ ((st.src.drop st.srcOff).take 8).flatMap rgb888
            ++ st.dst.drop (st.dstOff + 24))
          = st.dst.drop (st.dstOff + 24 * (m + 1)) := by
        rw [List.drop_append_eq_append_drop, List.drop_of_length_le (by simp [hlen, hblk])]
        simp only [List.length_append, hlen, hblk, List.nil_append, List.drop_drop]
        congr 1; omega
      have e3 : (st.src.drop st.srcOff).take (8 * (m + 1))
          = (st.src.drop st.srcOff).take 8 ++ (st.src.drop (st.srcOff + 8)).take (8 * m) := by
        rw [show 8 * (m + 1) = 8 + 8 * m by omega, List.take_add, List.drop_drop]
      rw [e1, e2, e3, List.flatMap_append]
      simp only [List.append_assoc]
    · omega
    · omega
    · omega


theorem convert565to888_spec (src dst : List Nat) (width height : Int)
    (hint : inIntRange (width * height)) (h0 : 0 ≤ width * height)
    (hpix : ∀ p ∈ src, p < 65536)
    (hs : 8 * (((width * height).toNat + 7) / 8) ≤ src.length)
    (hd : 24 * (((width * height).toNat + 7) / 8) ≤ dst.length) :
    convert565to888 src dst width height = .ok
      { src := src,
        dst := (src.take (8 * (((width * height).toNat + 7) / 8))).flatMap rgb888
                 ++ dst.drop (24 * (((width * height).toNat + 7) / 8)),
        srcOff := 8 * (((width * height).toNat + 7) / 8),
        dstOff := 24 * (((width * height).toNat + 7) / 8),
        steps := ((width * height).toNat + 7) / 8 } := by
  rw [convert565to888, if_pos hint, if_pos h0]
  generalize width * height = n at *
  rw [convertLoop_spec n ((n.toNat + 7) / 8) n.toNat ⟨src, dst, 0, 0, 0⟩ (by omega) hpix
    (by dsimp only; omega) (fun j hj => by dsimp only; omega)
    (by dsimp only; omega) (by dsimp only; omega)]
  simp

theorem convertBody_cases (st : ConvState) :
    convertBody st = .error .readPastSource ∨ convertBody st = .error .writePastDest ∨
    ∃ st2, convertBody st = .ok st2 ∧ st2.srcOff = st.srcOff + 8 := by
  unfold convertBody vld1q_u16
  by_cases hs : st.srcOff + 8 ≤ st.src.length
  · rw [if_pos hs]
    dsimp only
    unfold vst3_u8
    by_cases hd : st.dstOff + 24 ≤ st.dst.length
    · rw [if_pos hd]; exact Or.inr (Or.inr ⟨_, rfl, rfl⟩)
    · rw [if_neg hd]; exact Or.inr (Or.inl rfl)
  · rw [if_neg hs]; exact Or.inl rfl

theorem convertLoop_fuel (endOff : Int) :
    ∀ (fuel : Nat) (st : ConvState), endOff ≤ (st.srcOff : Int) + 8 * (fuel : Int) →
      convertLoop endOff fuel st ≠ .error .outOfFuel := by
  intro fuel
  induction fuel with
  | zero =>
    intro st h
    have hc : ¬ ((st.srcOff : Int) < endOff) := by omega
    simp [convertLoop, hc]
  | succ fuel ih =>
    intro st h
    rw [convertLoop]
    by_cases hc : (st.srcOff : Int) < endOff
    · rw [if_pos hc]
      rcases convertBody_cases st with hb | hb | ⟨st2, hb, hoff⟩
      · rw [hb]; simp
      · rw [hb]; simp
      · rw [hb]
        exact ih st2 (by rw [hoff]; push_cast at h ⊢; omega)
    · rw [if_neg hc]; simp

theorem convert565to888_fuel (src dst : List Nat) (width height : Int) :
    convert565to888 src dst width height ≠ .error .outOfFuel := by
  unfold convert565to888
  by_cases hr : inIntRange (width * height)
  · rw [if_pos hr]
    by_cases h0 : 0 ≤ width * height
    · rw [if_pos h0]
      exact convertLoop_fuel _ _ _ (by dsimp only; omega)
    · rw [if_neg h0]; simp
  · rw [if_neg hr]; simp

theorem getElem?_flatMap_rgb888 (l rest : List Nat) :
    ∀ (i : Nat) (hi : i < l.length),
      (l.flatMap rgb888 ++ rest)[3 * i]? = some ((l[i] >>> 11) <<< 3) ∧
      (l.flatMap rgb888 ++ rest)[3 * i + 1]? = some (((l[i] >>> 5) &&& 0x3F) <<< 2) ∧
      (l.flatMap rgb888 ++ rest)[3 * i + 2]? = some ((l[i] &&& 0x1F) <<< 3) := by
  induction l with
  | nil => intro i hi; simp at hi
  | cons a l ih =>
    intro i hi
    cases i with
    | zero => simp [List.flatMap_cons, rgb888]
    | succ i =>
      have hi2 : i < l.length := by simpa using hi
      have := ih i hi2
      have h3 : ∀ (x y z : Nat) (xs : List Nat) (n : Nat),
          (x :: y :: z :: xs)[n + 3]? = xs[n]? := fun _ _ _ _ _ => by
        simp only [List.getElem?_cons_succ]
      simp only [List.flatMap_cons, rgb888, List.cons_append, List.nil_append,
        List.getElem_cons_succ] at this ⊢
      rw [show 3 * (i + 1) = 3 * i + 3 by omega,
        show 3 * i + 3 + 1 = 3 * i + 1 + 3 by omega,
        show 3 * i + 3 + 2 = 3 * i + 2 + 3 by omega, h3, h3, h3]
      exact this

theorem rgb888_bytes (p : Nat) (h : p < 65536) :
    (p >>> 11) <<< 3 < 256 ∧ ((p >>> 5) &&& 0x3F) <<< 2 < 256 ∧ (p &&& 0x1F) <<< 3 < 256 := by
  rw [and_63, and_31]
  simp only [Nat.shiftRight_eq_div_pow, Nat.shiftLeft_eq]
  omega


/-! ## The converter: pixel formula -/

/-- C1: for `N = width * height` a multiple of 8 within `int`, a source object of `N`
16-bit pixels and a destination object of at least `3 * N` bytes, `convert565to888`
returns, and for every `i < N` the destination then holds at `3i`, `3i+1`, `3i+2` the
red, green and blue bytes `(p >> 11) << 3`, `((p >> 5) & 0x3F) << 2`, `(p & 0x1F) << 3` of
pixel `p = src[i]`, each below 256; a pixel `0xF800` yields the bytes 248, 0, 0. -/
theorem convert565to888_pixel_formula (src dst : List Nat) (width height : Int) (N : Nat)
    (hN : width * height = (N : Int)) (hpos : 0 < N) (h8 : N % 8 = 0)
    (hint : N < 2147483648) (hsrc : src.length = N) (hpix : ∀ p ∈ src, p < 65536)
    (hdst : 3 * N ≤ dst.length) :
    ∃ st, convert565to888 src dst width height = .ok st ∧
      (∀ (i : Nat) (hi : i < src.length),
        st.dst[3 * i]? = some ((src[i] >>> 11) <<< 3) ∧
        st.dst[3 * i + 1]? = some (((src[i] >>> 5) &&& 0x3F) <<< 2) ∧
        st.dst[3 * i + 2]? = some ((src[i] &&& 0x1F) <<< 3) ∧
        (src[i] >>> 11) <<< 3 < 256 ∧ ((src[i] >>> 5) &&& 0x3F) <<< 2 < 256 ∧
        (src[i] &&& 0x1F) <<< 3 < 256) ∧
      (∀ (i : Nat) (hi : i < src.length), src[i] = 0xF800 →
        st.dst[3 * i]? = some 248 ∧ st.dst[3 * i + 1]? = some 0 ∧
        st.dst[3 * i + 2]? = some 0) := by
  have hm : ((width * height).toNat + 7) / 8 * 8 = N := by rw [hN]; simp; omega
  have hr : inIntRange (width * height) := by rw [hN]; constructor <;> omega
  have hmain := convert565to888_spec src dst width height hr (by rw [hN]; omega) hpix
    (by omega) (by omega)
  have htake : src.take (8 * (((width * height).toNat + 7) / 8)) = src :=
    List.take_of_length_le (by omega)
  rw [htake] at hmain
  refine ⟨_, hmain, ?_, ?_⟩
  · intro i hi
    obtain ⟨h0, h1, h2⟩ := getElem?_flatMap_rgb888 src
      (dst.drop (24 * (((width * height).toNat + 7) / 8))) i hi
    obtain ⟨b0, b1, b2⟩ := rgb888_bytes src[i] (hpix _ (List.getElem_mem hi))
    exact ⟨h0, h1, h2, b0, b1, b2⟩
  · intro i hi hp
    obtain ⟨h0, h1, h2⟩ := getElem?_flatMap_rgb888 src
      (dst.drop (24 * (((width * height).toNat + 7) / 8))) i hi
    rw [hp] at h0 h1 h2
    exact ⟨h0, h1, h2⟩

/-- Witness for C1: the 8 by 1 image `demoShot.pixels`, whose first pixel is `0xF800`. -/
theorem convert565to888_pixel_formula_witness :
    ∃ st, convert565to888 demoShot.pixels (List.replicate 24 7) 8 1 = .ok st ∧
      (∀ (i : Nat) (hi : i < demoShot.pixels.length),
        st.dst[3 * i]? = some ((demoShot.pixels[i] >>> 11) <<< 3) ∧
        st.dst[3 * i + 1]? = some (((demoShot.pixels[i] >>> 5) &&& 0x3F) <<< 2) ∧
        st.dst[3 * i + 2]? = some ((demoShot.pixels[i] &&& 0x1F) <<< 3) ∧
        (demoShot.pixels[i] >>> 11) <<< 3 < 256 ∧
        ((demoShot.pixels[i] >>> 5) &&& 0x3F) <<< 2 < 256 ∧
        (demoShot.pixels[i] &&& 0x1F) <<< 3 < 256) ∧
      (∀ (i : Nat) (hi : i < demoShot.pixels.length), demoShot.pixels[i] = 0xF800 →
        st.dst[3 * i]? = some 248 ∧ st.dst[3 * i + 1]? = some 0 ∧
        st.dst[3 * i + 2]? = some 0) :=
  convert565to888_pixel_formula demoShot.pixels (List.replicate 24 7) 8 1 8 (by decide)
    (by decide) (by decide) (by decide) (by decide) (by decide) (by decide)

/-! ## The converter: frame and determinism -/

/-- C8: for `N = width * height` a multiple of 8 within `int`, a source object of `N`
16-bit pixels and destination objects of at least `3 * N` bytes, `convert565to888`
returns with the destination pointer advanced by exactly `3 * N` bytes (24 per loop
body); bytes `0 .. 3N-1` of the destination are the converted pixels, every byte at
index `≥ 3N` and every source pixel is what it was, and the converted bytes are the same
for any two destination objects the run may start from. -/
theorem convert565to888_frame (src dst dst2 : List Nat) (width height : Int) (N : Nat)
    (hN : width * height = (N : Int)) (hpos : 0 < N) (h8 : N % 8 = 0)
    (hint : N < 2147483648) (hsrc : src.length = N) (hpix : ∀ p ∈ src, p < 65536)
    (hdst : 3 * N ≤ dst.length) (hdst2 : 3 * N ≤ dst2.length) :
    ∃ st st2, convert565to888 src dst width height = .ok st ∧
      convert565to888 src dst2 width height = .ok st2 ∧
      st.dstOff = 3 * N ∧ st.dstOff = 24 * st.steps ∧ st.srcOff = N ∧
      st.dst.length = dst.length ∧
      st.dst.take (3 * N) = src.flatMap rgb888 ∧
      (∀ j, 3 * N ≤ j → st.dst[j]? = dst[j]?) ∧
      st.src = src ∧
      st2.dst.take (3 * N) = st.dst.take (3 * N) := by
  have hm : ((width * height).toNat + 7) / 8 * 8 = N := by rw [hN]; simp; omega
  have hr : inIntRange (width * height) := by rw [hN]; constructor <;> omega
  have h1 := convert565to888_spec src dst width height hr (by rw [hN]; omega) hpix
    (by omega) (by omega)
  have h2 := convert565to888_spec src dst2 width height hr (by rw [hN]; omega) hpix
    (by omega) (by omega)
  have htake : src.take (8 * (((width * height).toNat + 7) / 8)) = src :=
    List.take_of_length_le (by omega)
  have h24 : 24 * (((width * height).toNat + 7) / 8) = 3 * N := by omega
  rw [htake, h24] at h1 h2
  have hlen : (src.flatMap rgb888).length = 3 * N := by
    rw [length_flatMap_rgb888, hsrc]
  refine ⟨_, _, h1, h2, rfl, ?_, ?_, ?_, ?_, ?_, rfl, ?_⟩
  · dsimp only; omega
  · dsimp only; omega
  · simp only [List.length_append, hlen, List.length_drop]; omega
  · rw [List.take_append_of_le_length (by omega), List.take_of_length_le (by omega)]
  · intro j hj
    dsimp only
    rw [List.getElem?_append_right (by omega), hlen, List.getElem?_drop]
    congr 1; omega
  · dsimp only
    rw [List.take_append_of_le_length (by omega), List.take_append_of_le_length (by omega)]

/-- Witness for C8: the 8 by 1 image `demoShot.pixels` converted into a 26-byte and
into a 24-byte object. -/
theorem convert565to888_frame_witness :
    ∃ st st2, convert565to888 demoShot.pixels (List.replicate 26 7) 8 1 = .ok st ∧
      convert565to888 demoShot.pixels (List.replicate 24 9) 8 1 = .ok st2 ∧
      st.dstOff = 3 * 8 ∧ st.dstOff = 24 * st.steps ∧ st.srcOff = 8 ∧
      st.dst.length = (List.replicate 26 7).length ∧
      st.dst.take (3 * 8) = demoShot.pixels.flatMap rgb888 ∧
      (∀ j, 3 * 8 ≤ j → st.dst[j]? = (List.replicate 26 7)[j]?) ∧
      st.src = demoShot.pixels ∧
      st2.dst.take (3 * 8) = st.dst.take (3 * 8) :=
  convert565to888_frame demoShot.pixels (List.replicate 26 7) (List.replicate 24 9) 8 1 8
    (by decide) (by decide) (by decide) (by decide) (by decide) (by decide) (by decide)
    (by decide)

/-! ## The capture session: `consumePendingFrame` -/

theorem toInt32_mul (s h : Nat) (hs : s < 4294967296) (hh : h < 4294967296)
    (hsize : s * h * 3 < 4294967296) : toInt32 s * toInt32 h = ((s * h : Nat) : Int) := by
  rcases Nat.eq_zero_or_pos s with rfl | hspos
  · simp [toInt32]
  rcases Nat.eq_zero_or_pos h with rfl | hhpos
  · simp [toInt32]
  have h1 : s ≤ s * h := Nat.le_mul_of_pos_right s hhpos
  have h2 : h ≤ s * h := Nat.le_mul_of_pos_left h hspos
  have es : toInt32 s = (s : Int) := by
    unfold toInt32; rw [Nat.mod_eq_of_lt hs, if_pos (by omega)]
  have eh : toInt32 h = (h : Int) := by
    unfold toInt32; rw [Nat.mod_eq_of_lt hh, if_pos (by omega)]
  rw [es, eh]; push_cast; rfl

/-- C2, as amended: for a snapshot with status `OK` reporting width `w`, height `h`
and stride `s` (each a `uint32_t`) with `s * h` a multiple of 8 and `3 * s * h` below
`2 ^ 32`, whose pixel object holds at least `s * h` 16-bit pixels, and with the
conversion buffer either not yet allocated and `malloc` succeeding, or already allocated
with at least `3 * s * h` bytes, `consumePendingFrame` returns 0 and fills the frame with
`FORMAT_RGB_888`, `bpp = 3`, `width = w`, `height = h`, `stride = s`,
`size = stride * height * bpp` and `data` = the conversion buffer, which holds the
result of `convert565to888` on the snapshot with row length `s`: its first `3 * s * h`
bytes are the converted first `s * h` source pixels. -/
theorem consumePendingFrame_success {F : Type} (c : Compositor F) (heap : Heap)
    (self : MinicapImpl) (world : World) (frame : Frame) (shot : ScreenshotClient)
    (blk : Block)
    (hshot : c.update self.mDisplay = shot) (hOK : shot.result = OK)
    (hw : shot.width < 4294967296) (hh : shot.height < 4294967296)
    (hs : shot.stride < 4294967296)
    (h8 : (shot.stride * shot.height) % 8 = 0)
    (hsize : shot.stride * shot.height * 3 < 4294967296)
    (hlen : shot.stride * shot.height ≤ shot.pixels.length)
    (hpix : ∀ p ∈ shot.pixels, p < 65536)
    (hbuf : (world.dst = none ∧ malloc heap (shot.stride * shot.height * 3) = some blk) ∨
            (world.dst = some blk ∧ shot.stride * shot.height * 3 ≤ blk.bytes.length)) :
    ∃ st, convert565to888 shot.pixels blk.bytes (shot.stride : Int) (shot.height : Int)
          = .ok st ∧
      st.dst.take (3 * (shot.stride * shot.height))
          = (shot.pixels.take (shot.stride * shot.height)).flatMap rgb888 ∧
      consumePendingFrame c heap self world frame = .ok (0,
        { world with dst := some { blk with bytes := st.dst } },
        { data := some blk.addr, format := .FORMAT_RGB_888, width := shot.width,
          height := shot.height, stride := shot.stride, bpp := 3,
          size := shot.stride * shot.height * 3 }) := by
  have hcap : shot.stride * shot.height * 3 ≤ blk.bytes.length := by
    rcases hbuf with ⟨_, hm⟩ | ⟨_, hc⟩
    · unfold malloc at hm
      cases hf : heap.fresh with
      | none => rw [hf] at hm; exact absurd hm (by simp)
      | some a =>
        rw [hf] at hm
        simp only [Option.some.injEq] at hm
        rw [← hm]; simp
    · exact hc
  have hprod := toInt32_mul shot.stride shot.height hs hh hsize
  have hprod2 : (shot.stride : Int) * (shot.height : Int)
      = ((shot.stride * shot.height : Nat) : Int) := by push_cast; rfl
  have hr : inIntRange ((shot.stride : Int) * (shot.height : Int)) := by
    rw [hprod2]; constructor <;> omega
  have hsteps : ((((shot.stride : Int) * (shot.height : Int)).toNat + 7) / 8) * 8
      = shot.stride * shot.height := by
    rw [hprod2, Int.toNat_ofNat]; omega
  have hconv := convert565to888_spec shot.pixels blk.bytes shot.stride shot.height hr
    (by rw [hprod2]; omega) hpix
    (by omega) (by omega)
  have e8 : 8 * ((((shot.stride : Int) * (shot.height : Int)).toNat + 7) / 8)
      = shot.stride * shot.height := by omega
  have e24 : 24 * ((((shot.stride : Int) * (shot.height : Int)).toNat + 7) / 8)
      = 3 * (shot.stride * shot.height) := by omega
  rw [e8, e24] at hconv
  have hconv2 : convert565to888 shot.pixels blk.bytes (toInt32 shot.stride)
      (toInt32 shot.height) = convert565to888 shot.pixels blk.bytes shot.stride
        shot.height := by
    unfold convert565to888; rw [hprod, hprod2]
  have hfl : ((shot.pixels.take (shot.stride * shot.height)).flatMap rgb888).length
      = 3 * (shot.stride * shot.height) := by
    rw [length_flatMap_rgb888, List.length_take]; omega
  refine ⟨_, hconv, ?_, ?_⟩
  · dsimp only
    rw [List.take_append_of_le_length (by omega), List.take_of_length_le (by omega)]
  · have hne : ¬ (shot.result ≠ OK) := by simp [hOK]
    have hdst : (match world.dst with
        | none => malloc heap (shot.stride * shot.height * 3)
        | some b => some b) = some blk := by
      rcases hbuf with ⟨hn, hm⟩ | ⟨hsome, _⟩
      · rw [hn]; exact hm
      · rw [hsome]
    simp only [consumePendingFrame, hshot, if_neg hne, Nat.mod_eq_of_lt hw,
      Nat.mod_eq_of_lt hh, Nat.mod_eq_of_lt hs, Nat.mod_eq_of_lt hsize, hdst, hconv2, hconv,
      Option.map_some']

/-- Witness for C2 as amended: the first capture of a session, an 8 by 1 snapshot of
visible width 6, into a freshly allocated 24-byte buffer. -/
theorem consumePendingFrame_success_witness :
    ∃ st, convert565to888 demoShot.pixels (List.replicate 24 0) 8 1 = .ok st ∧
      st.dst.take (3 * (8 * 1)) = (demoShot.pixels.take (8 * 1)).flatMap rgb888 ∧
      consumePendingFrame (constCompositor (some 1) demoShot (0, []) 0) (zeroHeap 4096)
          (demoSession (some 1) (some 3)) ⟨none, []⟩ blankFrame = .ok (0,
        ⟨some ⟨4096, st.dst⟩, []⟩,
        { data := some 4096, format := .FORMAT_RGB_888, width := 6, height := 1,
          stride := 8, bpp := 3, size := 8 * 1 * 3 }) :=
  consumePendingFrame_success (constCompositor (some 1) demoShot (0, []) 0) (zeroHeap 4096)
    (demoSession (some 1) (some 3)) ⟨none, []⟩ blankFrame demoShot
    ⟨4096, List.replicate 24 0⟩ rfl rfl (by decide) (by decide) (by decide) (by decide)
    (by decide) (by decide)
    (by decide) (Or.inl ⟨rfl, by decide⟩)

/-- Counterexample to C2 as stated: a snapshot with status `OK` reporting width 3,
height 1 and stride 3; the first loop body loads eight pixels from the three-pixel
object (and would store 24 bytes into the 9-byte buffer), so the call does not return. -/
theorem consumePendingFrame_odd_snapshot_faults :
    oddShot.result = OK ∧
    consumePendingFrame (constCompositor (some 1) oddShot (0, []) 0) (zeroHeap 4096)
      (demoSession (some 1) (some 3)) ⟨none, []⟩ blankFrame = .error .readPastSource := by
  decide

/-- C3: when the screenshot call returns a status `e` other than `OK`,
`consumePendingFrame` returns exactly `e`; the caller's frame, the conversion buffer
pointer and object, and the trace of listener calls are what they were. -/
theorem consumePendingFrame_error_forwarded {F : Type} (c : Compositor F) (heap : Heap)
    (self : MinicapImpl) (world : World) (frame : Frame) (e : Int)
    (he : (c.update self.mDisplay).result = e) (hne : e ≠ OK) :
    ∃ world2 frame2, consumePendingFrame c heap self world frame = .ok (e, world2, frame2) ∧
      frame2 = frame ∧ world2.dst = world.dst ∧ world2.notified = world.notified := by
  refine ⟨world, frame, ?_, rfl, rfl, rfl⟩
  subst he
  simp only [consumePendingFrame, if_pos hne]

/-- Witness for C3: the compositor answers `BAD_VALUE` (-22). -/
theorem consumePendingFrame_error_forwarded_witness :
    ∃ world2 frame2,
      consumePendingFrame (constCompositor (some 1) (failedShot (-22)) (0, []) 0)
        (zeroHeap 4096) (demoSession (some 1) (some 3)) ⟨none, [3]⟩ blankFrame
        = .ok (-22, world2, frame2) ∧
      frame2 = blankFrame ∧ world2.dst = (⟨none, [3]⟩ : World).dst ∧
      world2.notified = (⟨none, [3]⟩ : World).notified :=
  consumePendingFrame_error_forwarded (constCompositor (some 1) (failedShot (-22)) (0, []) 0)
    (zeroHeap 4096) (demoSession (some 1) (some 3)) ⟨none, [3]⟩ blankFrame (-22) rfl
    (by decide)

/-- C9: on a session without display handle `consumePendingFrame` hands the null handle
to the screenshot call, which rejects it (the compositor's contract in the specification:
calling outside Bound yields a compositor-rejection error, a status other than `OK`); the
call then fails with that non-zero status and the conversion buffer is neither allocated
nor modified. -/
theorem consumePendingFrame_unbound_rejected {F : Type} (c : Compositor F) (heap : Heap)
    (self : MinicapImpl) (world : World) (frame : Frame)
    (hunbound : self.mDisplay = none) (hreject : (c.update none).result ≠ OK) :
    ∃ status world2 frame2,
      consumePendingFrame c heap self world frame = .ok (status, world2, frame2) ∧
      status = (c.update none).result ∧ status ≠ 0 ∧ world2.dst = world.dst := by
  refine ⟨(c.update none).result, world, frame, ?_, rfl, hreject, rfl⟩
  simp only [consumePendingFrame, hunbound, if_pos hreject]

/-- Witness for C9: a fresh session and a compositor that rejects with
`BAD_VALUE` (-22). -/
theorem consumePendingFrame_unbound_rejected_witness :
    ∃ status world2 frame2,
      consumePendingFrame (constCompositor none (failedShot (-22)) (0, []) 0)
        (zeroHeap 4096) (MinicapImpl.create 0) ⟨none, []⟩ blankFrame
        = .ok (status, world2, frame2) ∧
      status = ((constCompositor none (failedShot (-22)) (0, []) 0).update none).result ∧
      status ≠ 0 ∧ world2.dst = (⟨none, []⟩ : World).dst :=
  consumePendingFrame_unbound_rejected (constCompositor none (failedShot (-22)) (0, []) 0)
    (zeroHeap 4096) (MinicapImpl.create 0) ⟨none, []⟩ blankFrame rfl (by decide)

/-! ## The capture session: `applyConfigChanges` and the listener -/

/-- C4: on a session with a registered listener `l`, `applyConfigChanges` returns, and
its status is 0 exactly when the compositor resolves a non-null handle for the session's
display id; then the handle held afterwards is the one just resolved, whatever was held
before, and the trace gains exactly one call of `l`; otherwise the status is 1 and the
trace is what it was. -/
theorem applyConfigChanges_status {F : Type} (c : Compositor F) (self : MinicapImpl)
    (world : World) (l : Nat) (hl : self.mUserFrameAvailableListener = some l) :
    ∃ status self2 world2, applyConfigChanges c self world = .ok (status, self2, world2) ∧
      (status = 0 ↔ ∃ h, c.getBuiltInDisplay self.mDisplayId = some h) ∧
      (status = 0 → self2.mDisplay = c.getBuiltInDisplay self.mDisplayId ∧
        world2.notified = world.notified ++ [l]) ∧
      (status ≠ 0 → status = 1 ∧ world2.notified = world.notified) := by
  cases hd : c.getBuiltInDisplay self.mDisplayId with
  | none =>
    refine ⟨1, { self with mDisplay := none }, world, ?_, ?_, ?_, ?_⟩
    · simp only [applyConfigChanges, hd]
    · simp
    · intro h; exact absurd h (by decide)
    · intro _; exact ⟨rfl, rfl⟩
  | some h =>
    refine ⟨0, { self with mDisplay := some h },
      { world with notified := world.notified ++ [l] }, ?_, ?_, ?_, ?_⟩
    · simp only [applyConfigChanges, hd, onFrameAvailable, hl]
    · simp
    · intro _; exact ⟨rfl, rfl⟩
    · intro h0; exact absurd rfl h0

/-- Witness for C4: a session that held the stale handle 7 and listener 3, a compositor
that now resolves handle 1. -/
theorem applyConfigChanges_status_witness :
    ∃ status self2 world2,
      applyConfigChanges (constCompositor (some 1) demoShot (0, []) 0)
        (demoSession (some 7) (some 3)) ⟨none, []⟩ = .ok (status, self2, world2) ∧
      (status = 0 ↔ ∃ h, (constCompositor (some 1) demoShot (0, []) 0).getBuiltInDisplay
        (demoSession (some 7) (some 3)).mDisplayId = some h) ∧
      (status = 0 → self2.mDisplay = (constCompositor (some 1) demoShot (0, []) 0).getBuiltInDisplay
          (demoSession (some 7) (some 3)).mDisplayId ∧
        world2.notified = (⟨none, []⟩ : World).notified ++ [3]) ∧
      (status ≠ 0 → status = 1 ∧ world2.notified = (⟨none, []⟩ : World).notified) :=
  applyConfigChanges_status (constCompositor (some 1) demoShot (0, []) 0)
    (demoSession (some 7) (some 3)) ⟨none, []⟩ 3 rfl

/-- C10, as amended: when the display id does not resolve, `applyConfigChanges` returns
1; the display id, the desired width and height and the registered listener are what
they were and the listener is not called, but the display handle is overwritten with the
null handle. -/
theorem applyConfigChanges_failure {F : Type} (c : Compositor F) (self : MinicapImpl)
    (world : World) (hfail : c.getBuiltInDisplay self.mDisplayId = none) :
    ∃ self2, applyConfigChanges c self world = .ok (1, self2, world) ∧
      self2.mDisplay = none ∧ self2.mDisplayId = self.mDisplayId ∧
      self2.mDesiredWidth = self.mDesiredWidth ∧
      self2.mDesiredHeight = self.mDesiredHeight ∧
      self2.mUserFrameAvailableListener = self.mUserFrameAvailableListener := by
  refine ⟨{ self with mDisplay := none }, ?_, rfl, rfl, rfl, rfl, rfl⟩
  simp only [applyConfigChanges, hfail]

/-- Witness for C10 as amended: a session bound to handle 7 whose display id no longer
resolves. -/
theorem applyConfigChanges_failure_witness :
    ∃ self2, applyConfigChanges (constCompositor none demoShot (0, []) 0)
        (demoSession (some 7) (some 3)) ⟨none, [3]⟩ = .ok (1, self2, ⟨none, [3]⟩) ∧
      self2.mDisplay = none ∧ self2.mDisplayId = (demoSession (some 7) (some 3)).mDisplayId ∧
      self2.mDesiredWidth = (demoSession (some 7) (some 3)).mDesiredWidth ∧
      self2.mDesiredHeight = (demoSession (some 7) (some 3)).mDesiredHeight ∧
      self2.mUserFrameAvailableListener
        = (demoSession (some 7) (some 3)).mUserFrameAvailableListener :=
  applyConfigChanges_failure (constCompositor none demoShot (0, []) 0)
    (demoSession (some 7) (some 3)) ⟨none, [3]⟩ rfl

/-- Counterexample to C10 as stated: a session bound to handle 7 whose display id no
longer resolves; after the failed `applyConfigChanges` it holds the null handle, not 7. -/
theorem applyConfigChanges_failure_drops_handle :
    (demoSession (some 7) (some 3)).mDisplay = some 7 ∧
    applyConfigChanges (constCompositor none demoShot (0, []) 0)
      (demoSession (some 7) (some 3)) ⟨none, [3]⟩
      = .ok (1, demoSession none (some 3), ⟨none, [3]⟩) ∧
    (demoSession none (some 3)).mDisplay ≠ (demoSession (some 7) (some 3)).mDisplay := by
  decide

theorem consumePendingFrame_notified {F : Type} (c : Compositor F) (heap : Heap)
    (self : MinicapImpl) (world world2 : World) (frame frame2 : Frame) (status : Int)
    (h : consumePendingFrame c heap self world frame = .ok (status, world2, frame2)) :
    world2.notified = world.notified := by
  unfold consumePendingFrame at h
  by_cases hr : (c.update self.mDisplay).result ≠ OK
  · simp only [if_pos hr, Except.ok.injEq, Prod.mk.injEq] at h
    obtain ⟨-, rfl, -⟩ := h; rfl
  · simp only [if_neg hr] at h
    split at h
    · split at h
      · cases h
      · cases h
      · simp only [Except.ok.injEq, Prod.mk.injEq] at h
        obtain ⟨-, rfl, -⟩ := h; rfl
    · split at h
      · cases h
      · simp only [Except.ok.injEq, Prod.mk.injEq] at h
        obtain ⟨-, rfl, -⟩ := h; rfl

theorem step_notified {F : Type} (op : Op F) (self self2 : MinicapImpl)
    (world world2 : World) (reply : Reply)
    (h : step op self world = .ok (reply, self2, world2)) :
    ∃ fired, world2.notified = world.notified ++ fired ∧
      fired.length = armsListener op reply := by
  cases op with
  | applyConfigChanges c =>
    simp only [step, applyConfigChanges, onFrameAvailable] at h
    cases hd : c.getBuiltInDisplay self.mDisplayId with
    | none =>
      simp only [hd, Except.ok.injEq, Prod.mk.injEq] at h
      obtain ⟨rfl, -, rfl⟩ := h
      exact ⟨[], by simp, by simp [armsListener]⟩
    | some d =>
      cases hl : self.mUserFrameAvailableListener with
      | none => simp [hd, hl] at h
      | some l =>
        simp only [hd, hl, Except.ok.injEq, Prod.mk.injEq] at h
        obtain ⟨rfl, -, rfl⟩ := h
        exact ⟨[l], rfl, by simp [armsListener]⟩
  | consumePendingFrame c heap frame =>
    refine ⟨[], ?_, by simp [armsListener]⟩
    simp only [step] at h
    cases hc : consumePendingFrame c heap self world frame with
    | error e => simp [hc] at h
    | ok r =>
      obtain ⟨status, w2, f2⟩ := r
      simp only [hc, Except.ok.injEq, Prod.mk.injEq] at h
      obtain ⟨-, -, rfl⟩ := h
      simpa using consumePendingFrame_notified c heap self world w2 frame f2 status hc
  | releaseConsumedFrame frame =>
    simp only [step, releaseConsumedFrame, onFrameAvailable] at h
    cases hl : self.mUserFrameAvailableListener with
    | none => simp [hl] at h
    | some l =>
      simp only [hl, Except.ok.injEq, Prod.mk.injEq] at h
      obtain ⟨-, -, rfl⟩ := h
      exact ⟨[l], rfl, by simp [armsListener]⟩
  | setDesiredInfo info =>
    simp only [step, Except.ok.injEq, Prod.mk.injEq] at h
    obtain ⟨-, -, rfl⟩ := h
    exact ⟨[], by simp, by simp [armsListener]⟩
  | setRealInfo info =>
    simp only [step, Except.ok.injEq, Prod.mk.injEq] at h
    obtain ⟨-, -, rfl⟩ := h
    exact ⟨[], by simp, by simp [armsListener]⟩
  | setFrameAvailableListener listener =>
    simp only [step, Except.ok.injEq, Prod.mk.injEq] at h
    obtain ⟨-, -, rfl⟩ := h
    exact ⟨[], by simp, by simp [armsListener]⟩
  | release =>
    simp only [step, Except.ok.injEq, Prod.mk.injEq] at h
    obtain ⟨-, -, rfl⟩ := h
    exact ⟨[], by simp, by simp [armsListener]⟩

theorem step_defined {F : Type} (op : Op F) (self : MinicapImpl) (world : World) (l : Nat)
    (hl : self.mUserFrameAvailableListener = some l)
    (hreg : ∀ x, op = Op.setFrameAvailableListener x → x ≠ none) :
    (∃ reply s1 w1 l1, step op self world = .ok (reply, s1, w1) ∧
      s1.mUserFrameAvailableListener = some l1) ∨
    (∃ c heap frame e, op = Op.consumePendingFrame c heap frame ∧
      consumePendingFrame c heap self world frame = .error e ∧
      step op self world = .error e) := by
  cases op with
  | applyConfigChanges c =>
    left
    cases hd : c.getBuiltInDisplay self.mDisplayId with
    | none =>
      exact ⟨⟨1, none⟩, { self with mDisplay := none }, world, l,
        by simp only [step, applyConfigChanges, hd], hl⟩
    | some d =>
      exact ⟨⟨0, none⟩, { self with mDisplay := some d },
        { world with notified := world.notified ++ [l] }, l,
        by simp only [step, applyConfigChanges, hd, onFrameAvailable, hl], hl⟩
  | consumePendingFrame c heap frame =>
    cases hc : consumePendingFrame c heap self world frame with
    | error e =>
      right
      exact ⟨c, heap, frame, e, rfl, hc, by simp only [step, hc]⟩
    | ok r =>
      left
      obtain ⟨status, w1, f1⟩ := r
      exact ⟨⟨status, some f1⟩, self, w1, l, by simp only [step, hc], hl⟩
  | releaseConsumedFrame frame =>
    left
    exact ⟨⟨0, none⟩, self, { world with notified := world.notified ++ [l] }, l,
      by simp only [step, releaseConsumedFrame, onFrameAvailable, hl], hl⟩
  | setDesiredInfo info =>
    left
    exact ⟨_, _, world, l, rfl, hl⟩
  | setRealInfo info =>
    left
    exact ⟨_, self, world, l, rfl, hl⟩
  | setFrameAvailableListener listener =>
    left
    cases hx : listener with
    | none => exact absurd hx (hreg listener rfl)
    | some l1 => exact ⟨⟨0, none⟩, _, world, l1, rfl, rfl⟩
  | release =>
    left
    exact ⟨_, _, world, l, rfl, hl⟩

/-- C5: on a session with a registered listener `l`, `releaseConsumedFrame` returns and
adds exactly one call of `l` to the trace, `applyConfigChanges` returns 0 and adds
exactly one call when the display id resolves, and returns 1 and adds none when it does
not.  And every sequence of session calls in which no null listener is registered either
runs to its end, the trace having grown by exactly as many entries as the sequence has
`applyConfigChanges` calls that returned 0 plus `releaseConsumedFrame` calls
(`armsListenerTotal`: every other call adds none), or stops in a `consumePendingFrame`
whose conversion is undefined, all calls before it having returned. -/
theorem run_listener_count {F : Type} (ops : List (Op F)) (self : MinicapImpl)
    (world : World) (l : Nat) (hl : self.mUserFrameAvailableListener = some l)
    (hreg : ∀ op ∈ ops, ∀ x, op = Op.setFrameAvailableListener x → x ≠ none) :
    (∀ frame, releaseConsumedFrame self world frame
      = .ok { world with notified := world.notified ++ [l] }) ∧
    (∀ (c : Compositor F) (d : Nat), c.getBuiltInDisplay self.mDisplayId = some d →
      applyConfigChanges c self world
        = .ok (0, { self with mDisplay := some d },
            { world with notified := world.notified ++ [l] })) ∧
    (∀ (c : Compositor F), c.getBuiltInDisplay self.mDisplayId = none →
      applyConfigChanges c self world = .ok (1, { self with mDisplay := none }, world)) ∧
    ((∃ replies self2 world2, run ops self world = .ok (replies, self2, world2) ∧
        replies.length = ops.length ∧
        ∃ fired, world2.notified = world.notified ++ fired ∧
          fired.length = armsListenerTotal ops replies) ∨
      (∃ pre c heap frame post replies s1 w1 e,
        ops = pre ++ Op.consumePendingFrame c heap frame :: post ∧
        run pre self world = .ok (replies, s1, w1) ∧
        consumePendingFrame c heap s1 w1 frame = .error e ∧
        run ops self world = .error e)) := by
  refine ⟨fun frame => ?_, fun c d hd => ?_, fun c hd => ?_, ?_⟩
  · simp only [releaseConsumedFrame, onFrameAvailable, hl]
  · simp only [applyConfigChanges, hd, onFrameAvailable, hl]
  · simp only [applyConfigChanges, hd]
  · induction ops generalizing self world l with
    | nil => exact Or.inl ⟨[], self, world, rfl, rfl, [], by simp, by simp [armsListenerTotal]⟩
    | cons op ops ih =>
      rcases step_defined op self world l hl
          (fun x hx => hreg op (List.mem_cons_self _ _) x hx) with
        ⟨reply, s1, w1, l1, hstep, hl1⟩ | ⟨c, heap, frame, e, rfl, hc, hstep⟩
      · obtain ⟨fired1, hf1, hn1⟩ := step_notified op self s1 world w1 reply hstep
        rcases ih s1 w1 l1 hl1 (fun o ho => hreg o (List.mem_cons_of_mem _ ho)) with
          ⟨rs, s2, w2, hrun, hlen, fired2, hf2, hn2⟩ |
          ⟨pre, c, heap, frame, post, rs, s2, w2, e, hops, hpre, hc, hrun⟩
        · refine Or.inl ⟨reply :: rs, s2, w2, ?_, by simp [hlen], fired1 ++ fired2, ?_, ?_⟩
          · simp only [run, hstep, hrun]
          · rw [hf2, hf1, List.append_assoc]
          · simp [armsListenerTotal, hn1, hn2]
        · refine Or.inr ⟨op :: pre, c, heap, frame, post, reply :: rs, s2, w2, e, ?_, ?_,
            hc, ?_⟩
          · rw [hops]; rfl
          · simp only [run, hstep, hpre]
          · simp only [run, hstep, hrun]
      · exact Or.inr ⟨[], c, heap, frame, ops, [], self, world, e, rfl, rfl, hc,
          by simp only [run, hstep]⟩

/-- Witness for C5: `reconfigure`, `requestFrame`, `releaseFrame`, `reconfigure` on a
session with listener 3 run to their end; all four return 0 and the listener is called
three times, 1 + 0 + 1 + 1. -/
theorem run_listener_count_witness :
    run demoOps (demoSession none (some 3)) ⟨none, []⟩
      = .ok (demoReplies, demoSession (some 1) (some 3), demoWorld) ∧
    armsListenerTotal demoOps demoReplies = 3 ∧ demoWorld.notified = [3, 3, 3] ∧
    (∀ frame, releaseConsumedFrame (demoSession none (some 3)) ⟨none, []⟩ frame
      = .ok ⟨none, [3]⟩) ∧
    ((∃ replies self2 world2, run demoOps (demoSession none (some 3)) ⟨none, []⟩
          = .ok (replies, self2, world2) ∧
        replies.length = demoOps.length ∧
        ∃ fired, world2.notified = (⟨none, []⟩ : World).notified ++ fired ∧
          fired.length = armsListenerTotal demoOps replies) ∨
      (∃ pre c heap frame post replies s1 w1 e,
        demoOps = pre ++ Op.consumePendingFrame c heap frame :: post ∧
        run pre (demoSession none (some 3)) ⟨none, []⟩ = .ok (replies, s1, w1) ∧
        consumePendingFrame c heap s1 w1 frame = .error e ∧
        run demoOps (demoSession none (some 3)) ⟨none, []⟩ = .error e)) :=
  ⟨by decide, by decide, by decide,
    (run_listener_count demoOps (demoSession none (some 3)) ⟨none, []⟩ 3 rfl
      (by
        intro op hop x hx
        subst hx
        simp [demoOps] at hop)).1,
    (run_listener_count demoOps (demoSession none (some 3)) ⟨none, []⟩ 3 rfl
      (by
        intro op hop x hx
        subst hx
        simp [demoOps] at hop)).2.2.2⟩

/-! ## The display-info resolver -/

theorem static_cast_size_t_of_nonneg (sizeBits : Nat) (i : Int) (hbits : 32 ≤ sizeBits)
    (h0 : 0 ≤ i) (hi : inIntRange i) : static_cast_size_t sizeBits i = i.toNat := by
  have hpow : (2 : Nat) ^ 32 ≤ 2 ^ sizeBits := Nat.pow_le_pow_right (by decide) hbits
  have hpow2 : ((2 ^ 32 : Nat) : Int) ≤ ((2 ^ sizeBits : Nat) : Int) := Int.ofNat_le.mpr hpow
  unfold static_cast_size_t
  rw [Int.emod_eq_of_lt h0 (by have := hi.2; norm_num at hpow2; omega)]

theorem static_cast_size_t_of_neg (sizeBits : Nat) (i : Int) (hbits : 32 ≤ sizeBits)
    (h0 : i < 0) (hi : inIntRange i) : 2147483648 ≤ static_cast_size_t sizeBits i := by
  have hpow : (2 : Nat) ^ 32 ≤ 2 ^ sizeBits := Nat.pow_le_pow_right (by decide) hbits
  have hpow2 : ((2 ^ 32 : Nat) : Int) ≤ ((2 ^ sizeBits : Nat) : Int) := Int.ofNat_le.mpr hpow
  have hlo := hi.1
  norm_num at hpow2
  unfold static_cast_size_t
  rw [← Int.add_emod_self, Int.emod_eq_of_lt (by omega) (by omega)]
  omega

/-- C6: when the configuration query succeeds with a list of length `n < 2 ^ 31` and the
active index `i` (an `int`) is out of range, `i ≥ n` or `i < 0`, the resolver returns
`BAD_VALUE` through the guard, before the list is indexed, and the caller's `DisplayInfo`
is what it was. -/
theorem minicap_try_get_display_info_out_of_range {F : Type} (c : Compositor F)
    (diagonal : Nat → Nat → F → F → F) (sizeBits : Nat) (displayId : Int)
    (info : DisplayInfo F) (hbits : 32 ≤ sizeBits)
    (herr : (c.getDisplayConfigs (c.getBuiltInDisplay displayId)).1 = NO_ERROR)
    (hn : (c.getDisplayConfigs (c.getBuiltInDisplay displayId)).2.length < 2147483648)
    (hi : inIntRange (c.getActiveConfig (c.getBuiltInDisplay displayId)))
    (hout : ((c.getDisplayConfigs (c.getBuiltInDisplay displayId)).2.length : Int)
          ≤ c.getActiveConfig (c.getBuiltInDisplay displayId)
        ∨ c.getActiveConfig (c.getBuiltInDisplay displayId) < 0) :
    minicap_try_get_display_info c diagonal sizeBits displayId info
      = .ok (BAD_VALUE, info) := by
  have hge : static_cast_size_t sizeBits (c.getActiveConfig (c.getBuiltInDisplay displayId))
      ≥ (c.getDisplayConfigs (c.getBuiltInDisplay displayId)).2.length := by
    rcases hout with h | h
    · rw [static_cast_size_t_of_nonneg sizeBits _ hbits (by omega) hi]; omega
    · have := static_cast_size_t_of_neg sizeBits _ hbits h hi; omega
  have herr2 : ¬ ((c.getDisplayConfigs (c.getBuiltInDisplay displayId)).1 ≠ NO_ERROR) := by
    simp [herr]
  simp only [minicap_try_get_display_info, if_neg herr2, if_pos hge]

/-- Witness for C6: two configurations and the active index 2, equal to the length. -/
theorem minicap_try_get_display_info_out_of_range_witness :
    minicap_try_get_display_info (constCompositor (some 1) demoShot (0, demoConfigs) 2)
      (fun _ _ _ _ => 0) 32 0 blankInfo = .ok (BAD_VALUE, blankInfo) :=
  minicap_try_get_display_info_out_of_range
    (constCompositor (some 1) demoShot (0, demoConfigs) 2) (fun _ _ _ _ => 0) 32 0 blankInfo
    (by decide) rfl (by decide) (by decide) (Or.inl (by decide))

/-- C7: when the configuration query returns `NO_ERROR` with list `cs` and the active
index `i` satisfies `0 ≤ i < length cs`, the resolver returns 0 and the caller's
`DisplayInfo` has the width, height, orientation, fps, density, xdpi, ydpi and secure
flag of `cs[i]`. -/
theorem minicap_try_get_display_info_copies {F : Type} (c : Compositor F)
    (diagonal : Nat → Nat → F → F → F) (sizeBits : Nat) (displayId : Int)
    (info : DisplayInfo F) (cs : List (AndroidDisplayInfo F)) (i : Nat)
    (hbits : 32 ≤ sizeBits)
    (herr : (c.getDisplayConfigs (c.getBuiltInDisplay displayId)).1 = NO_ERROR)
    (hcs : (c.getDisplayConfigs (c.getBuiltInDisplay displayId)).2 = cs)
    (hact : c.getActiveConfig (c.getBuiltInDisplay displayId) = (i : Int))
    (hint : inIntRange (i : Int)) (hi : i < cs.length) :
    ∃ info2, minicap_try_get_display_info c diagonal sizeBits displayId info
        = .ok (0, info2) ∧
      info2.width = cs[i].w ∧ info2.height = cs[i].h ∧
      info2.orientation = cs[i].orientation ∧ info2.fps = cs[i].fps ∧
      info2.density = cs[i].density ∧ info2.xdpi = cs[i].xdpi ∧
      info2.ydpi = cs[i].ydpi ∧ info2.secure = cs[i].secure := by
  have hcast : static_cast_size_t sizeBits (i : Int) = i := by
    rw [static_cast_size_t_of_nonneg sizeBits _ hbits (by omega) hint]; simp
  have herr2 : ¬ ((c.getDisplayConfigs (c.getBuiltInDisplay displayId)).1 ≠ NO_ERROR) := by
    simp [herr]
  have hlt : ¬ (i ≥ cs.length) := by omega
  refine ⟨{ width := cs[i].w, height := cs[i].h, orientation := cs[i].orientation,
            fps := cs[i].fps, density := cs[i].density, xdpi := cs[i].xdpi,
            ydpi := cs[i].ydpi, secure := cs[i].secure,
            size := diagonal cs[i].w cs[i].h cs[i].xdpi cs[i].ydpi },
    ?_, rfl, rfl, rfl, rfl, rfl, rfl, rfl, rfl⟩
  simp only [minicap_try_get_display_info, if_neg herr2, hcs, hact, hcast, if_neg hlt,
    List.getElem?_eq_getElem hi]

/-- Witness for C7: two configurations, the second one active. -/
theorem minicap_try_get_display_info_copies_witness :
    ∃ info2, minicap_try_get_display_info (constCompositor (some 1) demoShot (0, demoConfigs) 1)
        (fun _ _ _ _ => 0) 32 0 blankInfo = .ok (0, info2) ∧
      info2.width = demoConfigs[1].w ∧ info2.height = demoConfigs[1].h ∧
      info2.orientation = demoConfigs[1].orientation ∧ info2.fps = demoConfigs[1].fps ∧
      info2.density = demoConfigs[1].density ∧ info2.xdpi = demoConfigs[1].xdpi ∧
      info2.ydpi = demoConfigs[1].ydpi ∧ info2.secure = demoConfigs[1].secure :=
  minicap_try_get_display_info_copies (constCompositor (some 1) demoShot (0, demoConfigs) 1)
    (fun _ _ _ _ => 0) 32 0 blankInfo demoConfigs 1 (by decide) rfl rfl rfl (by decide)
    (by decide)

/-! ## The converter: step count and losslessness -/

theorem convertLoop_unroll (endOff : Int) :
    ∀ (m fuel : Nat) (st : ConvState), (∀ p ∈ st.src, p < 65536) →
      (∀ j : Nat, j < m → (st.srcOff : Int) + 8 * (j : Int) < endOff) →
      st.srcOff + 8 * m ≤ st.src.length → st.dstOff + 24 * m ≤ st.dst.length →
      ∃ st2, convertLoop endOff (fuel + m) st = convertLoop endOff fuel st2 ∧
        st2.src = st.src ∧ st2.dst.length = st.dst.length ∧
        st2.srcOff = st.srcOff + 8 * m ∧ st2.dstOff = st.dstOff + 24 * m ∧
        st2.steps = st.steps + m := by
  intro m
  induction m with
  | zero => intro fuel st _ _ _ _; exact ⟨st, rfl, rfl, rfl, rfl, rfl, rfl⟩
  | succ m ih =>
    intro fuel st hpix hlt hs hd
    have hc : (st.srcOff : Int) < endOff := by simpa using hlt 0 (Nat.succ_pos m)
    have hblk : (((st.src.drop st.srcOff).take 8).flatMap rgb888).length = 24 := by
      rw [length_flatMap_rgb888, List.length_take, List.length_drop]; omega
    have hlen : (st.dst.take st.dstOff).length = st.dstOff := by
      rw [List.length_take]; omega
    obtain ⟨st2, h2, hsrc2, hdst2, hso2, hdo2, hst2⟩ := ih fuel
      ⟨st.src, st.dst.take st.dstOff ++ ((st.src.drop st.srcOff).take 8).flatMap rgb888
          ++ st.dst.drop (st.dstOff + 24), st.srcOff + 8, st.dstOff + 24, st.steps + 1⟩
      hpix (fun j hj => by have := hlt (j + 1) (by omega); push_cast at this ⊢; omega)
      (by dsimp only; omega)
      (by simp only [List.length_append, hlen, hblk, List.length_drop]; omega)
    refine ⟨st2, ?_, hsrc2, ?_, ?_, ?_, ?_⟩
    · rw [show fuel + (m + 1) = (fuel + m) + 1 by omega, convertLoop, if_pos hc,
        convertBody_ok st hpix (by omega) (by omega)]
      exact h2
    · rw [hdst2]; simp only [List.length_append, hlen, hblk, List.length_drop]; omega
    · rw [hso2]; dsimp only; omega
    · rw [hdo2]; dsimp only; omega
    · rw [hst2]; dsimp only; omega

theorem rgb888_lossless (p : Nat) :
    ((((p >>> 11) <<< 3) >>> 3) <<< 11) ||| (((((p >>> 5) &&& 0x3F) <<< 2) >>> 2) <<< 5)
      ||| (((p &&& 0x1F) <<< 3) >>> 3) = p := by
  rw [and_63, and_31]
  simp only [Nat.shiftRight_eq_div_pow, Nat.shiftLeft_eq]
  have e1 : p / 2 ^ 11 * 2 ^ 3 / 2 ^ 3 * 2 ^ 11 = 2 ^ 11 * (p / 2048) := by omega
  have e2 : p / 2 ^ 5 % 64 * 2 ^ 2 / 2 ^ 2 * 2 ^ 5 = 32 * (p / 32 % 64) := by omega
  have e3 : p % 32 * 2 ^ 3 / 2 ^ 3 = p % 32 := by omega
  rw [e1, e2, e3]
  rw [← Nat.mul_add_lt_is_or (by omega) (p / 2048)]
  rw [show 2 ^ 11 * (p / 2048) + 32 * (p / 32 % 64) = 2 ^ 5 * (64 * (p / 2048) + p / 32 % 64)
    by omega]
  rw [← Nat.mul_add_lt_is_or (by omega) _]
  omega

theorem rgb888_low_bits (p : Nat) (h : p < 65536) :
    ((p >>> 11) <<< 3) &&& 7 = 0 ∧ (((p >>> 5) &&& 0x3F) <<< 2) &&& 3 = 0 ∧
    ((p &&& 0x1F) <<< 3) &&& 7 = 0 ∧
    (p >>> 11) <<< 3 ≤ 248 ∧ ((p >>> 5) &&& 0x3F) <<< 2 ≤ 252 ∧ (p &&& 0x1F) <<< 3 ≤ 248 := by
  rw [and_63, and_31, Nat.and_pow_two_sub_one_eq_mod _ 3, Nat.and_pow_two_sub_one_eq_mod _ 2,
    Nat.and_pow_two_sub_one_eq_mod _ 3]
  simp only [Nat.shiftRight_eq_div_pow, Nat.shiftLeft_eq]
  omega

/-- C19: for `N = width * height` a multiple of 8 within `int`, a source object of `N`
16-bit pixels and a destination of at least `3 * N` bytes, the bytes `r`, `g`, `b` that
`convert565to888` stores for pixel `i` satisfy
`((r >> 3) << 11) | ((g >> 2) << 5) | (b >> 3) = src[i]`; the low three bits of `r` and
`b` and the low two bits of `g` are zero, `r` and `b` are at most 248 and `g` at most
252; and two pixels with equal byte triples are equal. -/
theorem convert565to888_lossless (src dst : List Nat) (width height : Int) (N : Nat)
    (hN : width * height = (N : Int)) (h8 : N % 8 = 0) (hint : N < 2147483648)
    (hsrc : src.length = N) (hpix : ∀ p ∈ src, p < 65536) (hdst : 3 * N ≤ dst.length) :
    ∃ st, convert565to888 src dst width height = .ok st ∧
      (∀ (i : Nat) (hi : i < src.length), ∃ r g b,
        st.dst[3 * i]? = some r ∧ st.dst[3 * i + 1]? = some g ∧
        st.dst[3 * i + 2]? = some b ∧
        (((r >>> 3) <<< 11) ||| ((g >>> 2) <<< 5) ||| (b >>> 3)) = src[i] ∧
        r &&& 7 = 0 ∧ g &&& 3 = 0 ∧ b &&& 7 = 0 ∧ r ≤ 248 ∧ g ≤ 252 ∧ b ≤ 248) ∧
      (∀ (i j : Nat) (hi : i < src.length) (hj : j < src.length),
        st.dst[3 * i]? = st.dst[3 * j]? → st.dst[3 * i + 1]? = st.dst[3 * j + 1]? →
        st.dst[3 * i + 2]? = st.dst[3 * j + 2]? → src[i] = src[j]) := by
  have hm : ((width * height).toNat + 7) / 8 * 8 = N := by rw [hN]; simp; omega
  have hr : inIntRange (width * height) := by rw [hN]; constructor <;> omega
  have hmain := convert565to888_spec src dst width height hr (by rw [hN]; omega) hpix
    (by omega) (by omega)
  have htake : src.take (8 * (((width * height).toNat + 7) / 8)) = src :=
    List.take_of_length_le (by omega)
  rw [htake] at hmain
  refine ⟨_, hmain, ?_, ?_⟩
  · intro i hi
    obtain ⟨h0, h1, h2⟩ := getElem?_flatMap_rgb888 src
      (dst.drop (24 * (((width * height).toNat + 7) / 8))) i hi
    obtain ⟨z0, z1, z2, b0, b1, b2⟩ := rgb888_low_bits src[i] (hpix _ (List.getElem_mem hi))
    exact ⟨_, _, _, h0, h1, h2, rgb888_lossless src[i], z0, z1, z2, b0, b1, b2⟩
  · intro i j hi hj e0 e1 e2
    obtain ⟨hi0, hi1, hi2⟩ := getElem?_flatMap_rgb888 src
      (dst.drop (24 * (((width * height).toNat + 7) / 8))) i hi
    obtain ⟨hj0, hj1, hj2⟩ := getElem?_flatMap_rgb888 src
      (dst.drop (24 * (((width * height).toNat + 7) / 8))) j hj
    dsimp only at e0 e1 e2
    rw [hi0, hj0] at e0
    rw [hi1, hj1] at e1
    rw [hi2, hj2] at e2
    simp only [Option.some.injEq] at e0 e1 e2
    rw [← rgb888_lossless src[i], ← rgb888_lossless src[j], e0, e1, e2]

/-- Witness for C19: the 8 by 1 image `demoShot.pixels`. -/
theorem convert565to888_lossless_witness :
    ∃ st, convert565to888 demoShot.pixels (List.replicate 24 7) 8 1 = .ok st ∧
      (∀ (i : Nat) (hi : i < demoShot.pixels.length), ∃ r g b,
        st.dst[3 * i]? = some r ∧ st.dst[3 * i + 1]? = some g ∧
        st.dst[3 * i + 2]? = some b ∧
        (((r >>> 3) <<< 11) ||| ((g >>> 2) <<< 5) ||| (b >>> 3)) = demoShot.pixels[i] ∧
        r &&& 7 = 0 ∧ g &&& 3 = 0 ∧ b &&& 7 = 0 ∧ r ≤ 248 ∧ g ≤ 252 ∧ b ≤ 248) ∧
      (∀ (i j : Nat) (hi : i < demoShot.pixels.length) (hj : j < demoShot.pixels.length),
        st.dst[3 * i]? = st.dst[3 * j]? → st.dst[3 * i + 1]? = st.dst[3 * j + 1]? →
        st.dst[3 * i + 2]? = st.dst[3 * j + 2]? →
        demoShot.pixels[i] = demoShot.pixels[j]) :=
  convert565to888_lossless demoShot.pixels (List.replicate 24 7) 8 1 8 (by decide)
    (by decide) (by decide) (by decide) (by decide) (by decide)

/-! ## The status-name table -/

theorem ite_name_eq_iff (a u : String) (ha : a ≠ u) (c : Prop) [Decidable c] (x : String) :
    (if c then a else x) = u ↔ ¬ c ∧ x = u := by
  by_cases hc : c
  · simp [hc, ha]
  · simp [hc]

theorem error_name_codes (k : StatusCodes) (hdist : k.toList.Nodup) :
    k.toList.map (error_name k) =
      ["NO_ERROR", "UNKNOWN_ERROR", "NO_MEMORY", "INVALID_OPERATION", "BAD_VALUE", "BAD_TYPE", "NAME_NOT_FOUND", "PERMISSION_DENIED", "NO_INIT", "ALREADY_EXISTS", "DEAD_OBJECT", "FAILED_TRANSACTION", "BAD_INDEX", "NOT_ENOUGH_DATA", "WOULD_BLOCK", "TIMED_OUT", "UNKNOWN_TRANSACTION", "FDS_NOT_ALLOWED"] := by
  have hsymm : k.toList.Pairwise (fun a b => b ≠ a) := List.Pairwise.imp Ne.symm hdist
  simp only [List.Nodup, StatusCodes.toList, List.pairwise_cons, List.mem_cons,
    List.mem_singleton, forall_eq_or_imp, forall_eq, ne_eq, List.not_mem_nil,
    IsEmpty.forall_iff, implies_true, List.Pairwise.nil, and_true] at hdist hsymm
  simp only [StatusCodes.toList, List.map_cons, List.map_nil, error_name]
  simp [hdist, hsymm]

/-- C16: `error_name` is defined on every status code; when the eighteen platform codes
are pairwise distinct it maps each of them to the string spelling its name, it returns
`"UNMAPPED_ERROR"` exactly for the codes that are none of the eighteen, and the eighteen
names are pairwise distinct. -/
theorem error_name_table (k : StatusCodes) (hdist : k.toList.Nodup) :
    (error_name k k.NO_ERROR = "NO_ERROR" ∧
    error_name k k.UNKNOWN_ERROR = "UNKNOWN_ERROR" ∧
    error_name k k.NO_MEMORY = "NO_MEMORY" ∧
    error_name k k.INVALID_OPERATION = "INVALID_OPERATION" ∧
    error_name k k.BAD_VALUE = "BAD_VALUE" ∧
    error_name k k.BAD_TYPE = "BAD_TYPE" ∧
    error_name k k.NAME_NOT_FOUND = "NAME_NOT_FOUND" ∧
    error_name k k.PERMISSION_DENIED = "PERMISSION_DENIED" ∧
    error_name k k.NO_INIT = "NO_INIT" ∧
    error_name k k.ALREADY_EXISTS = "ALREADY_EXISTS" ∧
    error_name k k.DEAD_OBJECT = "DEAD_OBJECT" ∧
    error_name k k.FAILED_TRANSACTION = "FAILED_TRANSACTION" ∧
    error_name k k.BAD_INDEX = "BAD_INDEX" ∧
    error_name k k.NOT_ENOUGH_DATA = "NOT_ENOUGH_DATA" ∧
    error_name k k.WOULD_BLOCK = "WOULD_BLOCK" ∧
    error_name k k.TIMED_OUT = "TIMED_OUT" ∧
    error_name k k.UNKNOWN_TRANSACTION = "UNKNOWN_TRANSACTION" ∧
    error_name k k.FDS_NOT_ALLOWED = "FDS_NOT_ALLOWED") ∧
    (∀ err : Int, error_name k err = "UNMAPPED_ERROR" ↔ err ∉ k.toList) ∧
    (k.toList.map (error_name k)).Nodup := by
  have hmap := error_name_codes k hdist
  refine ⟨?_, ?_, ?_⟩
  · simpa [StatusCodes.toList] using hmap
  · intro err
    simp only [error_name, StatusCodes.toList, List.mem_cons, List.mem_singleton,
      List.not_mem_nil, or_false]
    rw [ite_name_eq_iff "NO_ERROR" "UNMAPPED_ERROR" (by decide),
      ite_name_eq_iff "UNKNOWN_ERROR" "UNMAPPED_ERROR" (by decide),
      ite_name_eq_iff "NO_MEMORY" "UNMAPPED_ERROR" (by decide),
      ite_name_eq_iff "INVALID_OPERATION" "UNMAPPED_ERROR" (by decide),
      ite_name_eq_iff "BAD_VALUE" "UNMAPPED_ERROR" (by decide),
      ite_name_eq_iff "BAD_TYPE" "UNMAPPED_ERROR" (by decide),
      ite_name_eq_iff "NAME_NOT_FOUND" "UNMAPPED_ERROR" (by decide),
      ite_name_eq_iff "PERMISSION_DENIED" "UNMAPPED_ERROR" (by decide),
      ite_name_eq_iff "NO_INIT" "UNMAPPED_ERROR" (by decide),
      ite_name_eq_iff "ALREADY_EXISTS" "UNMAPPED_ERROR" (by decide),
      ite_name_eq_iff "DEAD_OBJECT" "UNMAPPED_ERROR" (by decide),
      ite_name_eq_iff "FAILED_TRANSACTION" "UNMAPPED_ERROR" (by decide),
      ite_name_eq_iff "BAD_INDEX" "UNMAPPED_ERROR" (by decide),
      ite_name_eq_iff "NOT_ENOUGH_DATA" "UNMAPPED_ERROR" (by decide),
      ite_name_eq_iff "WOULD_BLOCK" "UNMAPPED_ERROR" (by decide),
      ite_name_eq_iff "TIMED_OUT" "UNMAPPED_ERROR" (by decide),
      ite_name_eq_iff "UNKNOWN_TRANSACTION" "UNMAPPED_ERROR" (by decide),
      ite_name_eq_iff "FDS_NOT_ALLOWED" "UNMAPPED_ERROR" (by decide)]
    simp only [not_or, and_true]
  · rw [hmap]; decide

/-- Witness for C16: the codes of the Android 6.0 platform headers. -/
theorem error_name_table_witness :
    (error_name androidCodes androidCodes.NO_ERROR = "NO_ERROR" ∧
    error_name androidCodes androidCodes.UNKNOWN_ERROR = "UNKNOWN_ERROR" ∧
    error_name androidCodes androidCodes.NO_MEMORY = "NO_MEMORY" ∧
    error_name androidCodes androidCodes.INVALID_OPERATION = "INVALID_OPERATION" ∧
    error_name androidCodes androidCodes.BAD_VALUE = "BAD_VALUE" ∧
    error_name androidCodes androidCodes.BAD_TYPE = "BAD_TYPE" ∧
    error_name androidCodes androidCodes.NAME_NOT_FOUND = "NAME_NOT_FOUND" ∧
    error_name androidCodes androidCodes.PERMISSION_DENIED = "PERMISSION_DENIED" ∧
    error_name androidCodes androidCodes.NO_INIT = "NO_INIT" ∧
    error_name androidCodes androidCodes.ALREADY_EXISTS = "ALREADY_EXISTS" ∧
    error_name androidCodes androidCodes.DEAD_OBJECT = "DEAD_OBJECT" ∧
    error_name androidCodes androidCodes.FAILED_TRANSACTION = "FAILED_TRANSACTION" ∧
    error_name androidCodes androidCodes.BAD_INDEX = "BAD_INDEX" ∧
    error_name androidCodes androidCodes.NOT_ENOUGH_DATA = "NOT_ENOUGH_DATA" ∧
    error_name androidCodes androidCodes.WOULD_BLOCK = "WOULD_BLOCK" ∧
    error_name androidCodes androidCodes.TIMED_OUT = "TIMED_OUT" ∧
    error_name androidCodes androidCodes.UNKNOWN_TRANSACTION = "UNKNOWN_TRANSACTION" ∧
    error_name androidCodes androidCodes.FDS_NOT_ALLOWED = "FDS_NOT_ALLOWED") ∧
    (∀ err : Int, error_name androidCodes err = "UNMAPPED_ERROR" ↔
      err ∉ androidCodes.toList) ∧
    (androidCodes.toList.map (error_name androidCodes)).Nodup :=
  error_name_table androidCodes (by decide)

/-! ## The conversion buffer across calls -/

theorem length_reinterpret_u8_u16 (v : List Nat) :
    (reinterpret_u8_u16 v).length = 2 * v.length := by
  induction v with
  | nil => rfl
  | cons x xs ih => simp only [reinterpret_u8_u16, List.length_cons, ih]; omega

theorem length_reinterpret_u16_u8 :
    ∀ (n : Nat) (v : List Nat), v.length = 2 * n → (reinterpret_u16_u8 v).length = n := by
  intro n
  induction n with
  | zero =>
    intro v hv
    have : v = [] := List.length_eq_zero.mp (by omega)
    subst this; rfl
  | succ n ih =>
    intro v hv
    match v, hv with
    | lo :: hi :: rest, hv =>
      simp only [reinterpret_u16_u8, List.length_cons]
      rw [ih rest (by simp only [List.length_cons] at hv; omega)]

theorem length_interleave3 :
    ∀ (n : Nat) (r g b : List Nat), r.length = n → g.length = n → b.length = n →
      (interleave3 r g b).length = 3 * n := by
  intro n
  induction n with
  | zero =>
    intro r g b hr _ _
    have : r = [] := List.length_eq_zero.mp hr
    subst this; rfl
  | succ n ih =>
    intro r g b hr hg hb
    match r, g, b, hr, hg, hb with
    | x :: r, y :: g, z :: b, hr, hg, hb =>
      simp only [interleave3, List.length_cons]
      rw [ih r g b (by simpa using hr) (by simpa using hg) (by simpa using hb)]
      omega

theorem convertBody_length (st st2 : ConvState) (h : convertBody st = .ok st2) :
    st2.dst.length = st.dst.length := by
  unfold convertBody vld1q_u16 at h
  by_cases hs : st.srcOff + 8 ≤ st.src.length
  · rw [if_pos hs] at h
    dsimp only at h
    unfold vst3_u8 at h
    by_cases hd : st.dstOff + 24 ≤ st.dst.length
    · rw [if_pos hd] at h
      simp only [Except.ok.injEq] at h
      subst h
      have h8 : ((st.src.drop st.srcOff).take 8).length = 8 := by
        rw [List.length_take, List.length_drop]; omega
      have hi := length_interleave3 8
        (vshrn_n_u16 (reinterpret_u16_u8 (vshrq_n_u8
          (reinterpret_u8_u16 ((st.src.drop st.srcOff).take 8)) 3)) 5)
        (vshl_n_u8 (vshrn_n_u16 ((st.src.drop st.srcOff).take 8) 5) 2)
        (vmovn_u16 (vshlq_n_u16 ((st.src.drop st.srcOff).take 8) 3))
        (by
          simp only [vshrn_n_u16, List.length_map]
          exact length_reinterpret_u16_u8 8 _ (by
            simp only [vshrq_n_u8, List.length_map, length_reinterpret_u8_u16, h8]))
        (by simp only [vshl_n_u8, vshrn_n_u16, List.length_map, h8])
        (by simp only [vmovn_u16, vshlq_n_u16, List.length_map, h8])
      simp only [List.length_append, List.length_take, List.length_drop, hi]
      omega
    · rw [if_neg hd] at h; cases h
  · rw [if_neg hs] at h; cases h

theorem convertLoop_length (endOff : Int) :
    ∀ (fuel : Nat) (st st2 : ConvState), convertLoop endOff fuel st = .ok st2 →
      st2.dst.length = st.dst.length := by
  intro fuel
  induction fuel with
  | zero =>
    intro st st2 h
    rw [convertLoop] at h
    split at h
    · cases h
    · simp only [Except.ok.injEq] at h; rw [h]
  | succ fuel ih =>
    intro st st2 h
    rw [convertLoop] at h
    split at h
    · cases hb : convertBody st with
      | error e => rw [hb] at h; cases h
      | ok st1 =>
        rw [hb] at h
        rw [ih st1 st2 h, convertBody_length st st1 hb]
    · simp only [Except.ok.injEq] at h; rw [h]

theorem convert565to888_length (src dst : List Nat) (width height : Int) (st : ConvState)
    (h : convert565to888 src dst width height = .ok st) : st.dst.length = dst.length := by
  unfold convert565to888 at h
  split at h
  · split at h
    · exact convertLoop_length _ _ _ _ h
    · cases h
  · cases h

theorem malloc_eq_none (heap : Heap) (size : Nat) (h : malloc heap size = none) :
    heap.fresh = none := by
  unfold malloc at h
  cases hf : heap.fresh with
  | none => rfl
  | some a => rw [hf] at h; cases h

theorem consumePendingFrame_buffer {F : Type} (c : Compositor F) (heap : Heap)
    (self : MinicapImpl) (world world2 : World) (frame frame2 : Frame) (status : Int)
    (h : consumePendingFrame c heap self world frame = .ok (status, world2, frame2)) :
    (∀ b, world.dst = some b →
      ∃ b2, world2.dst = some b2 ∧ b2.addr = b.addr ∧ b2.bytes.length = b.bytes.length) ∧
    (status = 0 → frame2.data = world2.dst.map Block.addr) ∧
    (status = 0 → heap.fresh ≠ none → world2.dst ≠ none) := by
  unfold consumePendingFrame at h
  by_cases hr : (c.update self.mDisplay).result ≠ OK
  · simp only [if_pos hr, Except.ok.injEq, Prod.mk.injEq] at h
    obtain ⟨rfl, rfl, rfl⟩ := h
    exact ⟨fun b hb => ⟨b, hb, rfl, rfl⟩, fun h0 => absurd h0 hr, fun h0 => absurd h0 hr⟩
  · simp only [if_neg hr] at h
    cases hw : world.dst with
    | none =>
      simp only [hw] at h
      cases hm : malloc heap ((c.update self.mDisplay).stride % 4294967296
          * ((c.update self.mDisplay).height % 4294967296) * 3 % 4294967296) with
      | none =>
        simp only [hm] at h
        split at h
        · cases h
        · cases h
        · simp only [Except.ok.injEq, Prod.mk.injEq] at h
          obtain ⟨-, rfl, rfl⟩ := h
          refine ⟨fun b hb => (by cases hb), fun _ => rfl, fun _ hf => ?_⟩
          exact absurd (malloc_eq_none _ _ hm) hf
      | some blk =>
        simp only [hm] at h
        split at h
        · cases h
        · simp only [Except.ok.injEq, Prod.mk.injEq] at h
          obtain ⟨-, rfl, rfl⟩ := h
          exact ⟨fun b hb => (by cases hb), fun _ => rfl, fun _ _ => by simp⟩
    | some b0 =>
      simp only [hw] at h
      split at h
      · cases h
      · rename_i st hconv
        simp only [Except.ok.injEq, Prod.mk.injEq] at h
        obtain ⟨-, rfl, rfl⟩ := h
        refine ⟨fun b hb => ?_, fun _ => rfl, fun _ _ => by simp⟩
        simp only [Option.some.injEq] at hb
        subst hb
        exact ⟨_, rfl, rfl, convert565to888_length _ _ _ _ _ hconv⟩

theorem step_buffer {F : Type} (op : Op F) (self self2 : MinicapImpl)
    (world world2 : World) (reply : Reply)
    (h : step op self world = .ok (reply, self2, world2)) :
    (∀ b, world.dst = some b →
      ∃ b2, world2.dst = some b2 ∧ b2.addr = b.addr ∧ b2.bytes.length = b.bytes.length) ∧
    (reply.status = 0 → ∀ f, reply.frame = some f →
      f.data = world2.dst.map Block.addr ∧
      ((∀ c heap frame, op = .consumePendingFrame c heap frame → heap.fresh ≠ none) →
        world2.dst ≠ none)) := by
  cases op with
  | applyConfigChanges c =>
    simp only [step] at h
    cases hc : applyConfigChanges c self world with
    | error e => simp [hc] at h
    | ok r =>
      obtain ⟨status, s1, w1⟩ := r
      simp only [hc, Except.ok.injEq, Prod.mk.injEq] at h
      obtain ⟨rfl, -, rfl⟩ := h
      have hn : w1.dst = world.dst := by
        simp only [applyConfigChanges, onFrameAvailable] at hc
        split at hc
        · simp only [Except.ok.injEq, Prod.mk.injEq] at hc
          obtain ⟨-, -, rfl⟩ := hc; rfl
        · split at hc
          · cases hc
          · rename_i w hw
            simp only [Except.ok.injEq, Prod.mk.injEq] at hc
            obtain ⟨-, -, rfl⟩ := hc
            split at hw
            · cases hw
            · simp only [Except.ok.injEq] at hw
              rw [← hw]
      exact ⟨fun b hb => ⟨b, by rw [hn, hb], rfl, rfl⟩, fun _ f hf => (by cases hf)⟩
  | consumePendingFrame c heap frame =>
    simp only [step] at h
    cases hc : consumePendingFrame c heap self world frame with
    | error e => simp [hc] at h
    | ok r =>
      obtain ⟨status, w1, f1⟩ := r
      simp only [hc, Except.ok.injEq, Prod.mk.injEq] at h
      obtain ⟨rfl, -, rfl⟩ := h
      obtain ⟨h1, h2, h3⟩ := consumePendingFrame_buffer c heap self world w1 frame f1 status hc
      refine ⟨h1, fun h0 f hf => ?_⟩
      simp only [Option.some.injEq] at hf
      subst hf
      exact ⟨h2 h0, fun hh => h3 h0 (hh c heap frame rfl)⟩
  | releaseConsumedFrame frame =>
    simp only [step, releaseConsumedFrame, onFrameAvailable] at h
    cases hl : self.mUserFrameAvailableListener with
    | none => simp [hl] at h
    | some l =>
      simp only [hl, Except.ok.injEq, Prod.mk.injEq] at h
      obtain ⟨rfl, -, rfl⟩ := h
      exact ⟨fun b hb => ⟨b, hb, rfl, rfl⟩, fun _ f hf => (by cases hf)⟩
  | setDesiredInfo info =>
    simp only [step, Except.ok.injEq, Prod.mk.injEq] at h
    obtain ⟨rfl, -, rfl⟩ := h
    exact ⟨fun b hb => ⟨b, hb, rfl, rfl⟩, fun _ f hf => (by cases hf)⟩
  | setRealInfo info =>
    simp only [step, Except.ok.injEq, Prod.mk.injEq] at h
    obtain ⟨rfl, -, rfl⟩ := h
    exact ⟨fun b hb => ⟨b, hb, rfl, rfl⟩, fun _ f hf => (by cases hf)⟩
  | setFrameAvailableListener listener =>
    simp only [step, Except.ok.injEq, Prod.mk.injEq] at h
    obtain ⟨rfl, -, rfl⟩ := h
    exact ⟨fun b hb => ⟨b, hb, rfl, rfl⟩, fun _ f hf => (by cases hf)⟩
  | release =>
    simp only [step, Except.ok.injEq, Prod.mk.injEq] at h
    obtain ⟨rfl, -, rfl⟩ := h
    exact ⟨fun b hb => ⟨b, hb, rfl, rfl⟩, fun _ f hf => (by cases hf)⟩

theorem run_buffer_kept {F : Type} :
    ∀ (ops : List (Op F)) (self self2 : MinicapImpl) (world world2 : World)
      (replies : List Reply), run ops self world = .ok (replies, self2, world2) →
      ∀ b, world.dst = some b →
        ∃ b2, world2.dst = some b2 ∧ b2.addr = b.addr ∧
          b2.bytes.length = b.bytes.length := by
  intro ops
  induction ops with
  | nil =>
    intro self self2 world world2 replies h b hb
    simp only [run, Except.ok.injEq, Prod.mk.injEq] at h
    obtain ⟨-, -, rfl⟩ := h
    exact ⟨b, hb, rfl, rfl⟩
  | cons op ops ih =>
    intro self self2 world world2 replies h b hb
    simp only [run] at h
    cases hs : step op self world with
    | error e => simp [hs] at h
    | ok r =>
      obtain ⟨reply, s1, w1⟩ := r
      simp only [hs] at h
      cases hr : run ops s1 w1 with
      | error e => simp [hr] at h
      | ok r2 =>
        obtain ⟨rs, s2, w2⟩ := r2
        simp only [hr, Except.ok.injEq, Prod.mk.injEq] at h
        obtain ⟨-, rfl, rfl⟩ := h
        obtain ⟨b1, hb1, ha1, hl1⟩ := (step_buffer op self s1 world w1 reply hs).1 b hb
        obtain ⟨b2, hb2, ha2, hl2⟩ := ih s1 s2 w1 w2 rs hr b1 hb1
        exact ⟨b2, hb2, by rw [ha2, ha1], by rw [hl2, hl1]⟩

/-- C13, as amended: the conversion buffer belongs to the process, not to a session.
When a session `B` is returned a frame that names a buffer and then any session `A` is
returned a frame, both frames name the same buffer, and `A`'s call has stored the
conversion of `A`'s snapshot into the object `B`'s frame refers to. -/
theorem conversion_buffer_shared {F : Type} (cB cA : Compositor F) (heapB heapA : Heap)
    (A B : MinicapImpl) (world w1 w2 : World) (frameB frameA fB fA : Frame)
    (hB : consumePendingFrame cB heapB B world frameB = .ok (0, w1, fB))
    (hA : consumePendingFrame cA heapA A w1 frameA = .ok (0, w2, fA))
    (hdata : fB.data ≠ none) :
    fA.data = fB.data ∧
    ∃ b1 b2 st, w1.dst = some b1 ∧ fB.data = some b1.addr ∧
      w2.dst = some b2 ∧ b2.addr = b1.addr ∧
      convert565to888 (cA.update A.mDisplay).pixels b1.bytes
        (toInt32 ((cA.update A.mDisplay).stride % 4294967296))
        (toInt32 ((cA.update A.mDisplay).height % 4294967296)) = .ok st ∧
      b2.bytes = st.dst := by
  have hB2 := (consumePendingFrame_buffer cB heapB B world w1 frameB fB 0 hB).2.1 rfl
  cases hw1 : w1.dst with
  | none => rw [hw1] at hB2; exact absurd hB2 hdata
  | some b1 =>
    rw [hw1, Option.map_some'] at hB2
    have hA' := hA
    unfold consumePendingFrame at hA
    by_cases hr : (cA.update A.mDisplay).result ≠ OK
    · simp only [if_pos hr, Except.ok.injEq, Prod.mk.injEq] at hA
      exact absurd hA.1 hr
    · simp only [if_neg hr, hw1] at hA
      split at hA
      · cases hA
      · rename_i st hconv
        simp only [Except.ok.injEq, Prod.mk.injEq, true_and] at hA
        obtain ⟨rfl, rfl⟩ := hA
        exact ⟨by rw [hB2]; rfl, b1, _, st, rfl, hB2, rfl, rfl, hconv, rfl⟩

/-- Witness for C13 as amended: display 1 (all white) is captured by one session, then
display 0 by another; both frames name the buffer at address 4096. -/
theorem conversion_buffer_shared_witness :
    demoFrame.data = ({ demoFrame with width := 8 } : Frame).data ∧
    ∃ b1 b2 st,
      (⟨some ⟨4096, [248, 252, 248, 248, 252, 248, 248, 252, 248, 248, 252, 248, 248, 252,
          248, 248, 252, 248, 248, 252, 248, 248, 252, 248]⟩, []⟩ : World).dst = some b1 ∧
      ({ demoFrame with width := 8 } : Frame).data = some b1.addr ∧
      (⟨demoWorld.dst, []⟩ : World).dst = some b2 ∧ b2.addr = b1.addr ∧
      convert565to888 (twoDisplayCompositor.update (sessionOn 0 (some 1) (some 3)).mDisplay).pixels
        b1.bytes
        (toInt32 ((twoDisplayCompositor.update
          (sessionOn 0 (some 1) (some 3)).mDisplay).stride % 4294967296))
        (toInt32 ((twoDisplayCompositor.update
          (sessionOn 0 (some 1) (some 3)).mDisplay).height % 4294967296)) = .ok st ∧
      b2.bytes = st.dst :=
  conversion_buffer_shared twoDisplayCompositor twoDisplayCompositor (zeroHeap 4096)
    (zeroHeap 8192) (sessionOn 0 (some 1) (some 3)) (sessionOn 1 (some 2) (some 5))
    ⟨none, []⟩
    ⟨some ⟨4096, [248, 252, 248, 248, 252, 248, 248, 252, 248, 248, 252, 248, 248, 252,
      248, 248, 252, 248, 248, 252, 248, 248, 252, 248]⟩, []⟩
    ⟨demoWorld.dst, []⟩ blankFrame blankFrame { demoFrame with width := 8 } demoFrame
    (by decide) (by decide) (by decide)

/-- Counterexample to C13 as stated: two distinct sessions on two displays.  The frame
returned to the second names the buffer at address 4096 that the frame returned to the
first names, although the allocator would have handed out a fresh object at 8192, and
the second call has replaced the bytes the first frame refers to. -/
theorem conversion_buffer_not_per_session :
    sessionOn 0 (some 1) (some 3) ≠ sessionOn 1 (some 2) (some 5) ∧
    consumePendingFrame twoDisplayCompositor (zeroHeap 4096) (sessionOn 1 (some 2) (some 5))
      ⟨none, []⟩ blankFrame = .ok (0,
        ⟨some ⟨4096, [248, 252, 248, 248, 252, 248, 248, 252, 248, 248, 252, 248, 248, 252,
          248, 248, 252, 248, 248, 252, 248, 248, 252, 248]⟩, []⟩,
        { demoFrame with width := 8 }) ∧
    consumePendingFrame twoDisplayCompositor (zeroHeap 8192) (sessionOn 0 (some 1) (some 3))
      ⟨some ⟨4096, [248, 252, 248, 248, 252, 248, 248, 252, 248, 248, 252, 248, 248, 252,
        248, 248, 252, 248, 248, 252, 248, 248, 252, 248]⟩, []⟩ blankFrame
      = .ok (0, ⟨demoWorld.dst, []⟩, demoFrame) ∧
    demoFrame.data = ({ demoFrame with width := 8 } : Frame).data ∧
    demoWorld.dst ≠ some ⟨4096, [248, 252, 248, 248, 252, 248, 248, 252, 248, 248, 252,
      248, 248, 252, 248, 248, 252, 248, 248, 252, 248, 248, 252, 248]⟩ := by
  decide

/-- C14, as amended: `release()` changes no member of the session; after it the session
holds the display handle it held before, and calling it again changes nothing either. -/
theorem release_keeps_session (self : MinicapImpl) :
    release self = self ∧ (release self).mDisplay = self.mDisplay ∧
    release (release self) = release self :=
  ⟨rfl, rfl, rfl⟩

/-- Counterexample to C14 as stated: a session bound to handle 7 still holds handle 7
after `release()`. -/
theorem release_keeps_handle :
    (release (demoSession (some 7) (some 3))).mDisplay = some 7 ∧
    (release (demoSession (some 7) (some 3))).mDisplay ≠ none := by
  decide

/-- C15: `setDesiredInfo` returns 0 and changes only the stored desired width and
height; and whatever desired width and height two sessions hold, when they agree in
everything else `consumePendingFrame` gives both the same result on the same snapshot:
the same status, the same frame and the same buffer contents. -/
theorem setDesiredInfo_advisory {F : Type} (self : MinicapImpl) (info : DisplayInfo F) :
    (setDesiredInfo self info).1 = 0 ∧
    (setDesiredInfo self info).2.mDesiredWidth = info.width % 4294967296 ∧
    (setDesiredInfo self info).2.mDesiredHeight = info.height % 4294967296 ∧
    (setDesiredInfo self info).2.mDisplayId = self.mDisplayId ∧
    (setDesiredInfo self info).2.mDisplay = self.mDisplay ∧
    (setDesiredInfo self info).2.mUserFrameAvailableListener
      = self.mUserFrameAvailableListener ∧
    (∀ (c : Compositor F) (heap : Heap) (world : World) (frame : Frame),
      consumePendingFrame c heap (setDesiredInfo self info).2 world frame
        = consumePendingFrame c heap self world frame) ∧
    (∀ (w1 h1 w2 h2 : Nat) (c : Compositor F) (heap : Heap) (world : World) (frame : Frame),
      consumePendingFrame c heap { self with mDesiredWidth := w1, mDesiredHeight := h1 }
          world frame
        = consumePendingFrame c heap { self with mDesiredWidth := w2, mDesiredHeight := h2 }
          world frame) :=
  ⟨rfl, rfl, rfl, rfl, rfl, rfl, fun _ _ _ _ => rfl, fun _ _ _ _ _ _ _ _ => rfl⟩

/-! ## The display-info resolver: unresolved ids and the diagonal -/

/-- C11, as amended: for a display id the compositor cannot resolve, the resolver hands
the null handle to the configuration query without testing it; whenever that query
reports a status other than `NO_ERROR` for the null handle, the resolver returns that
non-zero status and the caller's `DisplayInfo` is what it was. -/
theorem minicap_try_get_display_info_unresolved {F : Type} (c : Compositor F)
    (diagonal : Nat → Nat → F → F → F) (sizeBits : Nat) (displayId : Int)
    (info : DisplayInfo F) (hnull : c.getBuiltInDisplay displayId = none)
    (herr : (c.getDisplayConfigs none).1 ≠ NO_ERROR) :
    minicap_try_get_display_info c diagonal sizeBits displayId info
      = .ok ((c.getDisplayConfigs none).1, info) ∧
    (c.getDisplayConfigs none).1 ≠ 0 := by
  refine ⟨?_, herr⟩
  simp only [minicap_try_get_display_info, hnull, if_pos herr]

/-- Witness for C11 as amended: no display resolves and the configuration query answers
`NAME_NOT_FOUND` (-2). -/
theorem minicap_try_get_display_info_unresolved_witness :
    minicap_try_get_display_info (constCompositor none demoShot (-2, []) 0)
        (fun _ _ _ _ => 0) 32 0 blankInfo
      = .ok (((constCompositor none demoShot (-2, []) 0).getDisplayConfigs none).1,
          blankInfo) ∧
    ((constCompositor none demoShot (-2, []) 0).getDisplayConfigs none).1 ≠ 0 :=
  minicap_try_get_display_info_unresolved (constCompositor none demoShot (-2, []) 0)
    (fun _ _ _ _ => 0) 32 0 blankInfo rfl (by decide)

/-- Counterexample to C11 as stated: no display id resolves, yet the configuration
query answers `NO_ERROR` with two configurations and the active index 1; the resolver
returns 0 and writes the second configuration into the caller's `DisplayInfo`. -/
theorem minicap_try_get_display_info_null_handle_accepted :
    (constCompositor none demoShot (0, demoConfigs) 1).getBuiltInDisplay 0 = none ∧
    ∃ info2, minicap_try_get_display_info (constCompositor none demoShot (0, demoConfigs) 1)
        (fun _ _ _ _ => 0) 32 0 blankInfo = .ok (0, info2) ∧
      info2.width = 1080 ∧ info2.height = 1920 ∧ blankInfo.width = 0 :=
  ⟨rfl, _, rfl, rfl, rfl, rfl⟩

/-- C17: on success the resolver sets `size` to `sqrt((w / xdpi)^2 + (h / ydpi)^2)` of
the active configuration, the arithmetic of line 270 being taken over the reals; for
`w = 1080`, `h = 1920`, `xdpi = ydpi = 400` that value is within 0.01 of 5.50. -/
theorem minicap_try_get_display_info_diagonal (c : Compositor ℝ) (sizeBits : Nat)
    (displayId : Int) (info : DisplayInfo ℝ) (cs : List (AndroidDisplayInfo ℝ)) (i : Nat)
    (hbits : 32 ≤ sizeBits)
    (herr : (c.getDisplayConfigs (c.getBuiltInDisplay displayId)).1 = NO_ERROR)
    (hcs : (c.getDisplayConfigs (c.getBuiltInDisplay displayId)).2 = cs)
    (hact : c.getActiveConfig (c.getBuiltInDisplay displayId) = (i : Int))
    (hint : inIntRange (i : Int)) (hi : i < cs.length)
    (_hx : cs[i].xdpi ≠ 0) (_hy : cs[i].ydpi ≠ 0) :
    ∃ info2, minicap_try_get_display_info c exactDiagonal sizeBits displayId info
        = .ok (0, info2) ∧
      info2.size = Real.sqrt (((cs[i].w : ℝ) / cs[i].xdpi) ^ 2
        + ((cs[i].h : ℝ) / cs[i].ydpi) ^ 2) ∧
      (cs[i].w = 1080 → cs[i].h = 1920 → cs[i].xdpi = 400 → cs[i].ydpi = 400 →
        |info2.size - 5.50| ≤ 0.01) := by
  have hcast : static_cast_size_t sizeBits (i : Int) = i := by
    rw [static_cast_size_t_of_nonneg sizeBits _ hbits (by omega) hint]; simp
  have herr2 : ¬ ((c.getDisplayConfigs (c.getBuiltInDisplay displayId)).1 ≠ NO_ERROR) := by
    simp [herr]
  have hlt : ¬ (i ≥ cs.length) := by omega
  refine ⟨{ width := cs[i].w, height := cs[i].h, orientation := cs[i].orientation,
            fps := cs[i].fps, density := cs[i].density, xdpi := cs[i].xdpi,
            ydpi := cs[i].ydpi, secure := cs[i].secure,
            size := exactDiagonal cs[i].w cs[i].h cs[i].xdpi cs[i].ydpi }, ?_, rfl, ?_⟩
  · simp only [minicap_try_get_display_info, if_neg herr2, hcs, hact, hcast, if_neg hlt,
      List.getElem?_eq_getElem hi]
  · intro hw hh hxd hyd
    simp only [exactDiagonal, hw, hh, hxd, hyd]
    rw [abs_le]
    constructor
    · have h1 : (5.49 : ℝ) ≤ Real.sqrt ((((1080 : ℕ) : ℝ) / 400) ^ 2
          + (((1920 : ℕ) : ℝ) / 400) ^ 2) := by
        apply Real.le_sqrt_of_sq_le
        norm_num
      linarith
    · have h2 : Real.sqrt ((((1080 : ℕ) : ℝ) / 400) ^ 2
          + (((1920 : ℕ) : ℝ) / 400) ^ 2) ≤ 5.51 := by
        rw [Real.sqrt_le_left (by norm_num)]
        norm_num
      linarith

/-- Witness for C17: one 1080 by 1920 configuration at 400 dpi, active. -/
theorem minicap_try_get_display_info_diagonal_witness :
    ∃ info2, minicap_try_get_display_info
        (configCompositor (some 1) 0 [hdConfig (400 : ℝ) 400 60 2.75] 0) exactDiagonal 32 0
        { width := 0, height := 0, orientation := 0, fps := 0, density := 0, xdpi := 0,
          ydpi := 0, secure := false, size := 0 } = .ok (0, info2) ∧
      info2.size = Real.sqrt (((([hdConfig (400 : ℝ) 400 60 2.75][0]).w : ℝ)
          / ([hdConfig (400 : ℝ) 400 60 2.75][0]).xdpi) ^ 2
        + ((([hdConfig (400 : ℝ) 400 60 2.75][0]).h : ℝ)
          / ([hdConfig (400 : ℝ) 400 60 2.75][0]).ydpi) ^ 2) ∧
      (([hdConfig (400 : ℝ) 400 60 2.75][0]).w = 1080 →
        ([hdConfig (400 : ℝ) 400 60 2.75][0]).h = 1920 →
        ([hdConfig (400 : ℝ) 400 60 2.75][0]).xdpi = 400 →
        ([hdConfig (400 : ℝ) 400 60 2.75][0]).ydpi = 400 →
        |info2.size - 5.50| ≤ 0.01) :=
  minicap_try_get_display_info_diagonal
    (configCompositor (some 1) 0 [hdConfig (400 : ℝ) 400 60 2.75] 0) 32 0
    { width := 0, height := 0, orientation := 0, fps := 0, density := 0, xdpi := 0,
      ydpi := 0, secure := false, size := 0 }
    [hdConfig (400 : ℝ) 400 60 2.75] 0 (by decide) rfl rfl rfl (by decide) (by decide)
    (by simp [hdConfig]) (by simp [hdConfig])

/-! ## The conversion buffer: capacity -/

theorem convert565to888_fits (pixels buf : List Nat) (s h : Nat)
    (hs : s < 4294967296) (hh : h < 4294967296) (h8 : (s * h) % 8 = 0)
    (hsize : s * h * 3 < 4294967296) (hlen : s * h ≤ pixels.length)
    (hpix : ∀ p ∈ pixels, p < 65536) (hcap : s * h * 3 ≤ buf.length) :
    ∃ st, convert565to888 pixels buf (toInt32 s) (toInt32 h) = .ok st ∧
      st.dstOff = 3 * (s * h) ∧ st.dst.length = buf.length := by
  have hprod := toInt32_mul s h hs hh hsize
  have hr : inIntRange (toInt32 s * toInt32 h) := by
    rw [hprod]; constructor <;> omega
  have hconv := convert565to888_spec pixels buf (toInt32 s) (toInt32 h) hr
    (by rw [hprod]; omega) hpix
    (by rw [hprod, Int.toNat_ofNat]; omega) (by rw [hprod, Int.toNat_ofNat]; omega)
  refine ⟨_, hconv, ?_, convert565to888_length _ _ _ _ _ hconv⟩
  dsimp only
  rw [hprod, Int.toNat_ofNat]; omega

theorem consumePendingFrame_fixed {F : Type} (c : Compositor F) (heap : Heap)
    (self : MinicapImpl) (world : World) (frame : Frame) (s h : Nat)
    (hs : s < 4294967296) (hh : h < 4294967296) (h8 : (s * h) % 8 = 0)
    (hsize : s * h * 3 < 4294967296)
    (hinv : ∀ b, world.dst = some b → b.bytes.length = s * h * 3)
    (hheap : heap.fresh ≠ none)
    (hshot : (c.update self.mDisplay).result = OK →
      (c.update self.mDisplay).stride = s ∧ (c.update self.mDisplay).height = h ∧
      s * h ≤ (c.update self.mDisplay).pixels.length ∧
      ∀ p ∈ (c.update self.mDisplay).pixels, p < 65536) :
    ∃ status world2 frame2,
      consumePendingFrame c heap self world frame = .ok (status, world2, frame2) ∧
      (∀ b, world2.dst = some b → b.bytes.length = s * h * 3) ∧
      (∀ b, world.dst = some b → ∃ b2, world2.dst = some b2) ∧
      (status = 0 → frame2.size = s * h * 3 ∧ frame2.stride = s ∧ frame2.height = h ∧
        ∃ b2, world2.dst = some b2) := by
  by_cases hr : (c.update self.mDisplay).result ≠ OK
  · refine ⟨(c.update self.mDisplay).result, world, frame, ?_, hinv,
      fun b hb => ⟨b, hb⟩, fun h0 => absurd h0 hr⟩
    simp only [consumePendingFrame, if_pos hr]
  · have hOK : (c.update self.mDisplay).result = OK := by
      by_contra hne; exact hr hne
    obtain ⟨hst, hht, hlen, hpix⟩ := hshot hOK
    have hblk : ∃ blk, (match world.dst with
        | none => malloc heap (s * h * 3)
        | some b => some b) = some blk ∧ blk.bytes.length = s * h * 3 := by
      cases hw : world.dst with
      | none =>
        cases hf : heap.fresh with
        | none => exact absurd hf hheap
        | some a =>
          refine ⟨⟨a, (List.range (s * h * 3)).map heap.junk⟩, ?_, by simp⟩
          simp only [malloc, hf]
      | some b => exact ⟨b, rfl, hinv b hw⟩
    obtain ⟨blk, hdst, hcap⟩ := hblk
    obtain ⟨st, hconv, -, hlen2⟩ := convert565to888_fits (c.update self.mDisplay).pixels
      blk.bytes s h hs hh h8 hsize hlen hpix (by omega)
    refine ⟨0, { world with dst := some { blk with bytes := st.dst } },
      { data := some blk.addr, format := .FORMAT_RGB_888,
        width := (c.update self.mDisplay).width % 4294967296, height := h, stride := s,
        bpp := 3, size := s * h * 3 }, ?_, ?_, fun _ _ => ⟨_, rfl⟩,
      fun _ => ⟨rfl, rfl, rfl, _, rfl⟩⟩
    · simp only [consumePendingFrame, if_neg hr, hst, hht, Nat.mod_eq_of_lt hs,
        Nat.mod_eq_of_lt hh, Nat.mod_eq_of_lt hsize, hdst, hconv, Option.map_some']
    · intro b hb
      simp only [Option.some.injEq] at hb
      rw [← hb]; dsimp only; omega

theorem fixed_geometry_run_aux {F : Type} (self : MinicapImpl) (s h : Nat)
    (hs : s < 4294967296) (hh : h < 4294967296) (h8 : (s * h) % 8 = 0)
    (hsize : s * h * 3 < 4294967296) :
    ∀ (ops : List (Op F)) (world : World),
      (∀ b, world.dst = some b → b.bytes.length = s * h * 3) →
      (∀ op ∈ ops, ∃ c heap frame, op = Op.consumePendingFrame c heap frame ∧
        heap.fresh ≠ none ∧
        ((c.update self.mDisplay).result = OK →
          (c.update self.mDisplay).stride = s ∧ (c.update self.mDisplay).height = h ∧
          s * h ≤ (c.update self.mDisplay).pixels.length ∧
          ∀ p ∈ (c.update self.mDisplay).pixels, p < 65536)) →
      ∃ replies world2, run ops self world = .ok (replies, self, world2) ∧
        (∀ b, world2.dst = some b → b.bytes.length = s * h * 3) ∧
        (∀ b, world.dst = some b → ∃ b2, world2.dst = some b2) ∧
        (∀ r ∈ replies, r.status = 0 →
          (∃ f, r.frame = some f ∧ f.size = s * h * 3 ∧ f.stride = s ∧ f.height = h) ∧
          ∃ b2, world2.dst = some b2 ∧ b2.bytes.length = s * h * 3) := by
  intro ops
  induction ops with
  | nil =>
    intro world hinv _
    exact ⟨[], world, rfl, hinv, fun b hb => ⟨b, hb⟩, fun r hr => (by cases hr)⟩
  | cons op ops ih =>
    intro world hinv hops
    obtain ⟨c, heap, frame, rfl, hheap, hshot⟩ := hops op (List.mem_cons_self _ _)
    obtain ⟨status, w1, f1, hcall, hinv1, hkeep1, hok1⟩ :=
      consumePendingFrame_fixed c heap self world frame s h hs hh h8 hsize hinv hheap hshot
    obtain ⟨rs, w2, hrun, hinv2, hkeep2, hrs⟩ :=
      ih w1 hinv1 (fun o ho => hops o (List.mem_cons_of_mem _ ho))
    refine ⟨⟨status, some f1⟩ :: rs, w2, ?_, hinv2, ?_, ?_⟩
    · simp only [run, step, hcall, hrun]
    · intro b hb
      obtain ⟨b1, hb1⟩ := hkeep1 b hb
      exact hkeep2 b1 hb1
    · intro r hmem h0
      rcases List.mem_cons.mp hmem with rfl | hmem
      · obtain ⟨hsz, hstr, hht, b1, hb1⟩ := hok1 h0
        obtain ⟨b2, hb2⟩ := hkeep2 b1 hb1
        exact ⟨⟨f1, rfl, hsz, hstr, hht⟩, b2, hb2, hinv2 b2 hb2⟩
      · exact hrs r hmem h0

theorem consumePendingFrame_capacity {F : Type} (c : Compositor F) (heap : Heap)
    (self : MinicapImpl) (world world2 : World) (frame frame2 : Frame) (status : Int)
    (b : Block) (hstart : world.dst = none)
    (h : consumePendingFrame c heap self world frame = .ok (status, world2, frame2))
    (hb : world2.dst = some b) :
    b.bytes.length = ((c.update self.mDisplay).stride % 4294967296
      * ((c.update self.mDisplay).height % 4294967296) * 3) % 4294967296 := by
  unfold consumePendingFrame at h
  by_cases hr : (c.update self.mDisplay).result ≠ OK
  · simp only [if_pos hr, Except.ok.injEq, Prod.mk.injEq] at h
    obtain ⟨-, rfl, -⟩ := h
    rw [hstart] at hb; cases hb
  · simp only [if_neg hr, hstart] at h
    cases hm : malloc heap ((c.update self.mDisplay).stride % 4294967296
        * ((c.update self.mDisplay).height % 4294967296) * 3 % 4294967296) with
    | none =>
      simp only [hm] at h
      split at h
      · cases h
      · cases h
      · simp only [Except.ok.injEq, Prod.mk.injEq] at h
        obtain ⟨-, rfl, -⟩ := h
        cases hb
    | some blk =>
      simp only [hm] at h
      split at h
      · cases h
      · rename_i st hconv
        simp only [Except.ok.injEq, Prod.mk.injEq] at h
        obtain ⟨-, rfl, -⟩ := h
        simp only [Option.some.injEq] at hb
        rw [← hb]
        dsimp only
        rw [convert565to888_length _ _ _ _ _ hconv]
        unfold malloc at hm
        cases hf : heap.fresh with
        | none => rw [hf] at hm; cases hm
        | some a =>
          rw [hf] at hm
          simp only [Option.some.injEq] at hm
          rw [← hm]; simp

/-- C20, as amended: the call that allocates the conversion buffer gives it
`(3 * stride * height) mod 2 ^ 32` bytes, for the stride and height of its snapshot, and
no later call of any sequence changes that capacity.  And in a process without buffer,
for every sequence of `consumePendingFrame` calls in which no `malloc` answers `NULL` and
every snapshot with status `OK` reports the same stride `s` and height `h`, with `s * h`
a multiple of 8, `3 * s * h` below `2 ^ 32` and a pixel object of at least `s * h` 16-bit
pixels: every call returns, the buffer has `3 * s * h` bytes, every frame returned with
status 0 has `size = 3 * s * h`, and each conversion into a buffer of that capacity
writes exactly `3 * s * h` bytes, none of them past the capacity. -/
theorem run_fixed_geometry {F : Type} (ops : List (Op F)) (self : MinicapImpl)
    (world : World) (s h : Nat) (hstart : world.dst = none) :
    (∀ (c : Compositor F) (heap : Heap) (frame frame2 : Frame) (status : Int)
        (world2 : World) (b : Block),
      consumePendingFrame c heap self world frame = .ok (status, world2, frame2) →
      world2.dst = some b →
      b.bytes.length = ((c.update self.mDisplay).stride % 4294967296
        * ((c.update self.mDisplay).height % 4294967296) * 3) % 4294967296) ∧
    (∀ (ops2 : List (Op F)) (s1 s2 : MinicapImpl) (w1 w2 : World) (replies : List Reply)
        (b : Block), w1.dst = some b → run ops2 s1 w1 = .ok (replies, s2, w2) →
      ∃ b2, w2.dst = some b2 ∧ b2.addr = b.addr ∧ b2.bytes.length = b.bytes.length) ∧
    (s < 4294967296 → h < 4294967296 → (s * h) % 8 = 0 → s * h * 3 < 4294967296 →
      (∀ op ∈ ops, ∃ c heap frame, op = Op.consumePendingFrame c heap frame ∧
        heap.fresh ≠ none ∧
        ((c.update self.mDisplay).result = OK →
          (c.update self.mDisplay).stride = s ∧ (c.update self.mDisplay).height = h ∧
          s * h ≤ (c.update self.mDisplay).pixels.length ∧
          ∀ p ∈ (c.update self.mDisplay).pixels, p < 65536)) →
      ∃ replies world2, run ops self world = .ok (replies, self, world2) ∧
        (∀ b, world2.dst = some b → b.bytes.length = 3 * s * h) ∧
        (∀ r ∈ replies, r.status = 0 →
          (∃ f, r.frame = some f ∧ f.size = 3 * s * h ∧ f.stride = s ∧ f.height = h) ∧
          ∃ b2, world2.dst = some b2 ∧ b2.bytes.length = 3 * s * h) ∧
        (∀ op ∈ ops, ∀ c heap frame, op = Op.consumePendingFrame c heap frame →
          (c.update self.mDisplay).result = OK →
          ∀ buf : List Nat, buf.length = 3 * s * h →
          ∃ st, convert565to888 (c.update self.mDisplay).pixels buf
              (toInt32 ((c.update self.mDisplay).stride % 4294967296))
              (toInt32 ((c.update self.mDisplay).height % 4294967296)) = .ok st ∧
            st.dstOff = 3 * s * h ∧ st.dstOff ≤ buf.length ∧
            st.dst.length = buf.length)) := by
  refine ⟨fun c heap frame frame2 status world2 b hcall hb =>
      consumePendingFrame_capacity c heap self world world2 frame frame2 status b hstart
        hcall hb,
    fun ops2 s1 s2 w1 w2 replies b hb hrun =>
      run_buffer_kept ops2 s1 s2 w1 w2 replies hrun b hb, ?_⟩
  intro hs hh h8 hsize hops
  have e3 : 3 * s * h = s * h * 3 := by
    rw [Nat.mul_assoc, Nat.mul_comm]
  obtain ⟨replies, world2, hrun, hinv2, -, hrs⟩ :=
    fixed_geometry_run_aux self s h hs hh h8 hsize ops world
      (fun b hb => by rw [hstart] at hb; cases hb) hops
  refine ⟨replies, world2, hrun, ?_, ?_, ?_⟩
  · intro b hb; rw [e3]; exact hinv2 b hb
  · intro r hr h0; rw [e3]; exact hrs r hr h0
  · intro op hop c heap frame he hOK buf hbuf
    obtain ⟨c2, heap2, frame2, he2, -, hshot⟩ := hops op hop
    rw [he] at he2
    simp only [Op.consumePendingFrame.injEq] at he2
    obtain ⟨rfl, -, -⟩ := he2
    obtain ⟨hst, hht, hlen, hpix⟩ := hshot hOK
    rw [hst, hht, Nat.mod_eq_of_lt hs, Nat.mod_eq_of_lt hh]
    obtain ⟨st, hconv, hoff, hl⟩ := convert565to888_fits (c.update self.mDisplay).pixels
      buf s h hs hh h8 hsize hlen hpix (by omega)
    exact ⟨st, hconv, by rw [hoff]; omega, by rw [hoff]; omega, hl⟩

/-- Witness for C20 as amended: two captures of the 8 by 1 `demoShot` run to their end
with a 24-byte buffer; and a first snapshot whose `uint32_t` product wraps (`wrapShot`)
returns with a buffer of `(3 * stride * height) mod 2 ^ 32 = 24` bytes. -/
theorem run_fixed_geometry_witness :
    run demoCaptures (demoSession (some 1) (some 3)) ⟨none, []⟩
      = .ok ([⟨0, some demoFrame⟩, ⟨0, some demoFrame⟩], demoSession (some 1) (some 3),
          ⟨demoWorld.dst, []⟩) ∧
    consumePendingFrame (constCompositor (some 1) wrapShot (0, []) 0) (zeroHeap 4096)
        (demoSession (some 1) (some 3)) ⟨none, []⟩ blankFrame
      = .ok (0, ⟨demoWorld.dst, []⟩,
          { demoFrame with width := 8, height := 4294967288, stride := 4294967295 }) ∧
    (⟨4096, [248, 0, 0, 0, 252, 0, 0, 0, 248, 248, 252, 248, 0, 0, 0, 0, 0, 8, 0, 0, 16,
        16, 68, 160]⟩ : Block).bytes.length
      = (((constCompositor (some 1) wrapShot (0, []) 0).update
            (demoSession (some 1) (some 3)).mDisplay).stride % 4294967296
          * (((constCompositor (some 1) wrapShot (0, []) 0).update
            (demoSession (some 1) (some 3)).mDisplay).height % 4294967296) * 3)
        % 4294967296 ∧
    (∃ replies world2, run demoCaptures (demoSession (some 1) (some 3)) ⟨none, []⟩
        = .ok (replies, demoSession (some 1) (some 3), world2) ∧
      (∀ b, world2.dst = some b → b.bytes.length = 3 * 8 * 1) ∧
      (∀ r ∈ replies, r.status = 0 →
        (∃ f, r.frame = some f ∧ f.size = 3 * 8 * 1 ∧ f.stride = 8 ∧ f.height = 1) ∧
        ∃ b2, world2.dst = some b2 ∧ b2.bytes.length = 3 * 8 * 1) ∧
      (∀ op ∈ demoCaptures, ∀ c heap frame, op = Op.consumePendingFrame c heap frame →
        (c.update (demoSession (some 1) (some 3)).mDisplay).result = OK →
        ∀ buf : List Nat, buf.length = 3 * 8 * 1 →
        ∃ st, convert565to888 (c.update (demoSession (some 1) (some 3)).mDisplay).pixels buf
            (toInt32 ((c.update (demoSession (some 1) (some 3)).mDisplay).stride
              % 4294967296))
            (toInt32 ((c.update (demoSession (some 1) (some 3)).mDisplay).height
              % 4294967296)) = .ok st ∧
          st.dstOff = 3 * 8 * 1 ∧ st.dstOff ≤ buf.length ∧ st.dst.length = buf.length)) :=
  ⟨by decide, by decide,
    (run_fixed_geometry demoCaptures (demoSession (some 1) (some 3)) ⟨none, []⟩ 8 1 rfl).1
      (constCompositor (some 1) wrapShot (0, []) 0) (zeroHeap 4096) blankFrame
      { demoFrame with width := 8, height := 4294967288, stride := 4294967295 } 0
      ⟨demoWorld.dst, []⟩ _ (by decide) rfl,
    (run_fixed_geometry demoCaptures (demoSession (some 1) (some 3)) ⟨none, []⟩ 8 1 rfl).2.2
      (by decide) (by decide) (by decide) (by decide)
      (by
        intro op hop
        simp only [demoCaptures, List.mem_cons, List.mem_singleton, List.not_mem_nil,
          or_false] at hop
        rcases hop with rfl | rfl
        · exact ⟨_, _, _, rfl, by simp [zeroHeap],
            fun _ => ⟨rfl, rfl, by decide, by decide⟩⟩
        · exact ⟨_, _, _, rfl, by simp [zeroHeap],
            fun _ => ⟨rfl, rfl, by decide, by decide⟩⟩)⟩

theorem toInt32_mul_of_int (s h : Nat) (hs : s < 4294967296) (hh : h < 4294967296)
    (hN : s * h < 2147483648) : toInt32 s * toInt32 h = ((s * h : Nat) : Int) := by
  rcases Nat.eq_zero_or_pos s with rfl | hspos
  · simp [toInt32]
  rcases Nat.eq_zero_or_pos h with rfl | hhpos
  · simp [toInt32]
  have h1 : s ≤ s * h := Nat.le_mul_of_pos_right s hhpos
  have h2 : h ≤ s * h := Nat.le_mul_of_pos_left h hspos
  have es : toInt32 s = (s : Int) := by
    unfold toInt32; rw [Nat.mod_eq_of_lt hs, if_pos (by omega)]
  have eh : toInt32 h = (h : Int) := by
    unfold toInt32; rw [Nat.mod_eq_of_lt hh, if_pos (by omega)]
  rw [es, eh]; push_cast; rfl

theorem convertBody_writePast (st : ConvState) (hs : st.srcOff + 8 ≤ st.src.length)
    (hd : ¬ (st.dstOff + 24 ≤ st.dst.length)) :
    convertBody st = .error .writePastDest := by
  simp only [convertBody, vld1q_u16, vst3_u8, if_pos hs, if_neg hd]

theorem convert565to888_overflow (pixels buf : List Nat) (width height : Int) (n : Nat)
    (hN : width * height = (n : Int)) (hint : n < 2147483648)
    (hpix : ∀ p ∈ pixels, p < 65536) (hlen : n ≤ pixels.length)
    (hmore : 8 * (buf.length / 24) + 8 ≤ n) :
    convert565to888 pixels buf width height = .error .writePastDest := by
  have hr : inIntRange (width * height) := by rw [hN]; constructor <;> omega
  rw [convert565to888, if_pos hr, if_pos (by rw [hN]; omega), hN, Int.toNat_ofNat]
  obtain ⟨st2, hrun, hsrc, hdst, hso, hdo, -⟩ :=
    convertLoop_unroll (n : Int) (buf.length / 24) (n - buf.length / 24)
      ⟨pixels, buf, 0, 0, 0⟩ hpix (fun j hj => by dsimp only; omega)
      (by dsimp only; omega) (by dsimp only; omega)
  dsimp only at hsrc hdst hso hdo
  have e : n - buf.length / 24 + buf.length / 24 = n := by omega
  rw [e] at hrun
  rw [hrun]
  obtain ⟨k, hk⟩ : ∃ k, n - buf.length / 24 = k + 1 :=
    ⟨n - buf.length / 24 - 1, by omega⟩
  have hc : (st2.srcOff : Int) < (n : Int) := by rw [hso]; omega
  rw [hk, convertLoop, if_pos hc,
    convertBody_writePast st2 (by rw [hso, hsrc]; omega) (by rw [hdo, hdst]; omega)]

theorem consumePendingFrame_overflow {F : Type} (c : Compositor F) (heap : Heap)
    (self : MinicapImpl) (world : World) (frame : Frame) (shot : ScreenshotClient)
    (a : Nat) (hshot : c.update self.mDisplay = shot) (hOK : shot.result = OK)
    (hs : shot.stride < 4294967296) (hh : shot.height < 4294967296)
    (hint : shot.stride * shot.height < 2147483648)
    (hpix : ∀ p ∈ shot.pixels, p < 65536)
    (hlen : shot.stride * shot.height ≤ shot.pixels.length)
    (hworld : world.dst = none) (hheap : heap.fresh = some a)
    (hmore : 8 * (shot.stride * shot.height * 3 % 4294967296 / 24) + 8
      ≤ shot.stride * shot.height) :
    consumePendingFrame c heap self world frame = .error .writePastDest := by
  have hne : ¬ (shot.result ≠ OK) := by simp [hOK]
  have hconv := convert565to888_overflow shot.pixels
    ((List.range (shot.stride * shot.height * 3 % 4294967296)).map heap.junk)
    (toInt32 shot.stride) (toInt32 shot.height) (shot.stride * shot.height)
    (toInt32_mul_of_int shot.stride shot.height hs hh hint) hint hpix hlen
    (by simpa using hmore)
  simp only [consumePendingFrame, hshot, if_neg hne, Nat.mod_eq_of_lt hs,
    Nat.mod_eq_of_lt hh, hworld, malloc, hheap, hconv]

/-- Counterexample to C20 as stated: the first snapshot of the process reports stride
40000 and height 37500, a multiple of 8 that fits `int`.  The `uint32_t` product
`stride * height * 3` wraps to 205032704, `malloc` gets that many bytes, and the
conversion stores past them. -/
theorem consumePendingFrame_capacity_wraps :
    hugeShot.result = OK ∧ (hugeShot.stride * hugeShot.height) % 8 = 0 ∧
    hugeShot.stride * hugeShot.height < 2147483648 ∧
    (hugeShot.stride * hugeShot.height * 3) % 4294967296 = 205032704 ∧
    consumePendingFrame (constCompositor (some 1) hugeShot (0, []) 0) (zeroHeap 4096)
      (demoSession (some 1) (some 3)) ⟨none, []⟩ blankFrame = .error .writePastDest :=
  ⟨rfl, by decide, by decide, by decide,
    consumePendingFrame_overflow (constCompositor (some 1) hugeShot (0, []) 0) (zeroHeap 4096)
      (demoSession (some 1) (some 3)) ⟨none, []⟩ blankFrame hugeShot 4096 rfl rfl (by decide)
      (by decide) (by decide)
      (by
        intro p hp
        rw [List.eq_of_mem_replicate hp]
        decide)
      (by
        show 40000 * 37500 ≤ (List.replicate 1500000000 0).length
        rw [List.length_replicate])
      rfl rfl (by decide)⟩

end Minicap
